import Mathlib

/-!
Shallow embedding of the schema-guarded data-access layer in
`src/lib/queries.ts` (a Supabase client wrapper).

Modelling conventions:
* The remote tabular store is a `DB` value: one list of rows per table.
  Row types carry the columns the layer reads or writes; payload columns the
  code never inspects are represented by a few representative fields.
* Timestamps (`new Date().toISOString()`) are naturals, order-isomorphic to
  ISO-8601 strings; `Store.now` is the clock at call time.
* Every remote call (select / insert / update / delete / upsert / rpc and the
  schema probe) consumes one entry of a fault schedule
  `Store.faults : Nat → Option StoreError`, indexed by `Store.callIdx`.
  `some e` means the call fails with error `e` (supabase reports errors as
  values; the `throw error` statements of the source re-raise them into the
  surrounding `try`/`catch`); `none` means the call succeeds against `db`.
  An unreachable store is a schedule whose probe entry is a fault.
* Each call also appends a `StoreEvent` to `Store.trace`, so "no write
  occurred" and "no remote call occurred" are provable statements.
* `.single()` errors with code `PGRST116` when the result is not exactly one
  row; `.maybeSingle()` returns a null row (no error) on zero rows and
  errors with `PGRST116` on more than one.
* Store-generated row ids come from a `DB.nextId` counter; store-side column
  defaults for columns an insert does not provide are modelled as fixed
  values (the SQL schema is external to the repository).
-/

/-- A profile row; fields follow the `Profile` literals built in the source. -/
structure Profile where
  id : String
  email : String
  full_name : String
  headline : String
  bio : String
  location : String
  avatar_url : String
  banner_url : String
  website : String
  phone : String
  specialization : List String
  is_premium : Bool
  profile_views : Nat
  user_type : String
  profile_type : String
  created_at : Nat
  updated_at : Nat
deriving DecidableEq, Repr

/-- The `id, full_name, avatar_url, headline, email` projection of a profile
used by the post-author denormalization queries. -/
structure AuthorSummary where
  id : String
  full_name : String
  avatar_url : String
  headline : String
  email : String
deriving DecidableEq, Repr

def Profile.toAuthorSummary (p : Profile) : AuthorSummary :=
  { id := p.id, full_name := p.full_name, avatar_url := p.avatar_url,
    headline := p.headline, email := p.email }

/-- A post row. -/
structure Post where
  id : String
  content : String
  author_id : String
  visibility : String
  likes_count : Nat
  comments_count : Nat
  shares_count : Nat
  created_at : Nat
  updated_at : Nat
deriving DecidableEq, Repr

/-- A post together with the denormalized author summary attached by the
shaping step (the source spreads the post fields and adds `author`). -/
structure PostWithAuthor where
  post : Post
  author : AuthorSummary
deriving DecidableEq, Repr

structure PostComment where
  id : String
  content : String
  post_id : String
  author_id : String
  created_at : Nat
deriving DecidableEq, Repr

structure PostLike where
  id : String
  post_id : String
  user_id : String
  created_at : Nat
deriving DecidableEq, Repr

structure Connection where
  id : String
  requester_id : String
  recipient_id : String
  status : String
  created_at : Nat
  updated_at : Nat
deriving DecidableEq, Repr

structure Follow where
  id : String
  follower_id : String
  following_id : String
  follower_type : String
  following_type : String
  created_at : Nat
deriving DecidableEq, Repr

structure Experience where
  id : String
  profile_id : String
  title : String
  company : String
  start_date : Nat
  end_date : Nat
  current : Bool
deriving DecidableEq, Repr

structure Education where
  id : String
  profile_id : String
  school : String
  degree : String
  field : String
  start_date : Nat
  end_date : Nat
deriving DecidableEq, Repr

structure Institution where
  id : String
  name : String
  created_at : Nat
  updated_at : Nat
deriving DecidableEq, Repr

structure Job where
  id : String
  title : String
  company_id : String
  posted_by : String
  created_at : Nat
  updated_at : Nat
deriving DecidableEq, Repr

structure JobApplication where
  id : String
  job_id : String
  applicant_id : String
  created_at : Nat
  updated_at : Nat
deriving DecidableEq, Repr

structure Event where
  id : String
  title : String
  organizer_id : String
  start_date : Nat
  created_at : Nat
  updated_at : Nat
deriving DecidableEq, Repr

structure EventAttendee where
  id : String
  event_id : String
  attendee_id : String
  created_at : Nat
deriving DecidableEq, Repr

structure ProfileView where
  viewer_id : String
  profile_id : String
  viewed_at : Nat
deriving DecidableEq, Repr

structure Notification where
  id : String
  user_id : String
  content : String
  created_at : Nat
deriving DecidableEq, Repr

/-- The remote store's visible state: one list of rows per logical table,
plus the id counter for store-generated ids. -/
structure DB where
  profiles : List Profile
  posts : List Post
  post_comments : List PostComment
  post_likes : List PostLike
  connections : List Connection
  follows : List Follow
  experiences : List Experience
  education : List Education
  institutions : List Institution
  jobs : List Job
  job_applications : List JobApplication
  events : List Event
  event_attendees : List EventAttendee
  profile_views : List ProfileView
  nextId : Nat
deriving DecidableEq, Repr

def emptyDB : DB :=
  { profiles := [], posts := [], post_comments := [], post_likes := [],
    connections := [], follows := [], experiences := [], education := [],
    institutions := [], jobs := [], job_applications := [], events := [],
    event_attendees := [], profile_views := [], nextId := 0 }

/-- An error value returned by a remote call (as supabase reports it);
`code` mirrors the `error.code` field the source inspects. -/
structure StoreError where
  code : String
deriving DecidableEq, Repr

/-- One remote call, as recorded in the trace. `rangeRead` records the row
offset and page size requested from the store. -/
inductive StoreEvent where
  | read (table : String)
  | rangeRead (table : String) (offset limit : Nat)
  | countRead (table : String)
  | insertRow (table : String)
  | updateRow (table : String)
  | deleteRow (table : String)
  | upsertRow (table : String)
  | rpc (fname : String)
deriving DecidableEq, Repr

/-- The state threaded through every operation: the store, the per-call fault
schedule, the index of the next call, the trace of issued calls, and the
current clock. -/
structure Store where
  db : DB
  faults : Nat → Option StoreError
  callIdx : Nat
  trace : List StoreEvent
  now : Nat

def noFaults : Nat → Option StoreError := fun _ => none

/-- Fault schedule of an unreachable store: every call fails. -/
def allFail (e : StoreError) : Nat → Option StoreError := fun _ => some e

/-- Fault schedule where the schema probe succeeds and every later call
fails. -/
def failAfterProbe (e : StoreError) : Nat → Option StoreError :=
  fun i => if i == 0 then none else some e

def mkStore (db : DB) (f : Nat → Option StoreError) (now : Nat) : Store :=
  { db := db, faults := f, callIdx := 0, trace := [], now := now }

/-- Issue one remote call: consume the next fault-schedule entry and record
the event. -/
def callStore (s : Store) (ev : StoreEvent) : Option StoreError × Store :=
  (s.faults s.callIdx,
   { s with callIdx := s.callIdx + 1, trace := s.trace ++ [ev] })

/-- A read returning the rows the caller computed from the current `db`
(filter/order/projection are done store-side but depend only on `db`). -/
def runSelect (s : Store) (table : String) (rows : List α) :
    Except StoreError (List α) × Store :=
  let (fault, s1) := callStore s (.read table)
  match fault with
  | some e => (.error e, s1)
  | none => (.ok rows, s1)

/-- `select with exact head count`: an exact row count. -/
def runCount (s : Store) (table : String) (n : Nat) :
    Except StoreError Nat × Store :=
  let (fault, s1) := callStore s (.countRead table)
  match fault with
  | some e => (.error e, s1)
  | none => (.ok n, s1)

/-- `.range(offset, offset + limit - 1)`: a row-range slice of the ordered
result set. -/
def runRange (s : Store) (table : String) (rows : List α) (offset limit : Nat) :
    Except StoreError (List α) × Store :=
  let (fault, s1) := callStore s (.rangeRead table offset limit)
  match fault with
  | some e => (.error e, s1)
  | none => (.ok ((rows.drop offset).take limit), s1)

/-- `.single()`: exactly one row, else error code `PGRST116`. -/
def singleRow (rows : List α) : Except StoreError α :=
  match rows with
  | [x] => .ok x
  | _ => .error { code := "PGRST116" }

/-- `.maybeSingle()`: zero rows is a null row without error; more than one
row is error code `PGRST116`. -/
def maybeSingleRow (rows : List α) : Except StoreError (Option α) :=
  match rows with
  | [] => .ok none
  | [x] => .ok (some x)
  | _ => .error { code := "PGRST116" }

def runSingle (s : Store) (table : String) (rows : List α) :
    Except StoreError α × Store :=
  let (fault, s1) := callStore s (.read table)
  match fault with
  | some e => (.error e, s1)
  | none => (singleRow rows, s1)

def runMaybeSingle (s : Store) (table : String) (rows : List α) :
    Except StoreError (Option α) × Store :=
  let (fault, s1) := callStore s (.read table)
  match fault with
  | some e => (.error e, s1)
  | none => (maybeSingleRow rows, s1)

/-- An insert; on success the write `f` is applied to the store and `ret`
(the row echoed by `.select().single()`) is returned. -/
def runInsert (s : Store) (table : String) (f : DB → DB) (ret : α) :
    Except StoreError α × Store :=
  let (fault, s1) := callStore s (.insertRow table)
  match fault with
  | some e => (.error e, s1)
  | none => (.ok ret, { s1 with db := f s1.db })

def runUpdate (s : Store) (table : String) (f : DB → DB) (ret : α) :
    Except StoreError α × Store :=
  let (fault, s1) := callStore s (.updateRow table)
  match fault with
  | some e => (.error e, s1)
  | none => (.ok ret, { s1 with db := f s1.db })

def runDelete (s : Store) (table : String) (f : DB → DB) :
    Except StoreError Unit × Store :=
  let (fault, s1) := callStore s (.deleteRow table)
  match fault with
  | some e => (.error e, s1)
  | none => (.ok (), { s1 with db := f s1.db })

def runUpsert (s : Store) (table : String) (f : DB → DB) :
    Except StoreError Unit × Store :=
  let (fault, s1) := callStore s (.upsertRow table)
  match fault with
  | some e => (.error e, s1)
  | none => (.ok (), { s1 with db := f s1.db })

/-- A named remote procedure; the source never checks its result. -/
def runRpc (s : Store) (fname : String) (f : DB → DB) :
    Option StoreError × Store :=
  let (fault, s1) := callStore s (.rpc fname)
  match fault with
  | some e => (some e, s1)
  | none => (none, { s1 with db := f s1.db })

/-- `checkSchemaExists`: probe `profiles` with a one-row read; any error
means "schema absent / store unreachable". -/
def checkSchemaExists (s : Store) : Bool × Store :=
  let (fault, s1) := callStore s (.read "profiles")
  (fault.isNone, s1)

/-- `order(col, ascending: false)` on a numeric column. -/
def sortByKeyDesc (key : α → Nat) (l : List α) : List α :=
  l.insertionSort (fun a b => key b ≤ key a)

/-- `order(col, ascending: true)` on a numeric column. -/
def sortByKeyAsc (key : α → Nat) (l : List α) : List α :=
  l.insertionSort (fun a b => key a ≤ key b)

/-- The profile literal `getProfile` returns when the schema probe fails
(source lines 66-84). -/
def mockProfileUnreachable (userId : String) (now : Nat) : Profile :=
  { id := userId, email := "user@example.com", full_name := "User",
    headline := "Healthcare Professional", bio := "", location := "",
    avatar_url := "", banner_url := "", website := "", phone := "",
    specialization := ["General Medicine"], is_premium := false,
    profile_views := 0, user_type := "individual",
    profile_type := "individual", created_at := now, updated_at := now }

/-- The `basicProfile` literal of `getProfile`'s `PGRST116` branch
(source lines 99-117). -/
def basicProfileNotFound (userId : String) (now : Nat) : Profile :=
  { id := userId, email := "user@example.com",
    full_name := "Healthcare Professional", headline := "Medical Professional",
    bio := "", location := "", avatar_url := "", banner_url := "",
    website := "", phone := "", specialization := ["General Medicine"],
    is_premium := false, profile_views := 0, user_type := "individual",
    profile_type := "individual", created_at := now, updated_at := now }

/-- The mock profile `ensureProfileExists` returns when the schema probe
fails (source lines 165-183). -/
def mockProfileEnsure (userId email fullName : String) (now : Nat) : Profile :=
  { id := userId, email := email, full_name := fullName,
    headline := "Healthcare Professional", bio := "", location := "",
    avatar_url := "", banner_url := "", website := "", phone := "",
    specialization := ["General Medicine"], is_premium := false,
    profile_views := 0, user_type := "individual",
    profile_type := "individual", created_at := now, updated_at := now }

/-- The row written by `ensureProfileExists`'s insert: the source provides
id, email, full_name and the two timestamps; the remaining columns take
store-side defaults, modelled as empty/zero values. -/
def insertedProfile (userId email fullName : String) (now : Nat) : Profile :=
  { id := userId, email := email, full_name := fullName, headline := "",
    bio := "", location := "", avatar_url := "", banner_url := "",
    website := "", phone := "", specialization := [], is_premium := false,
    profile_views := 0, user_type := "individual",
    profile_type := "individual", created_at := now, updated_at := now }

/-- The author placeholder attached to a post whose author record is
missing or whose fetch failed. -/
def unknownAuthor (authorId : String) : AuthorSummary :=
  { id := authorId, full_name := "Unknown User", avatar_url := "",
    headline := "", email := "" }

/-- Inert default used only to eliminate an `Option` the source has already
checked with `isSome`. -/
def emptyProfile : Profile :=
  { id := "", email := "", full_name := "", headline := "", bio := "",
    location := "", avatar_url := "", banner_url := "", website := "",
    phone := "", specialization := [], is_premium := false,
    profile_views := 0, user_type := "", profile_type := "",
    created_at := 0, updated_at := 0 }

/-- `getProfile` (source lines 58-129): probe, then a `maybeSingle` lookup;
a `PGRST116` error yields the basic placeholder, any other error yields
null, and otherwise the (possibly null) row is returned as-is. -/
def getProfile (userId : String) (s : Store) : Option Profile × Store :=
  let (schemaExists, s1) := checkSchemaExists s
  if schemaExists then
    let (res, s2) :=
      runMaybeSingle s1 "profiles" (s1.db.profiles.filter (fun p => p.id == userId))
    match res with
    | .error e =>
        if e.code == "PGRST116" then (some (basicProfileNotFound userId s2.now), s2)
        else (none, s2)
    | .ok data => (data, s2)
  else
    (some (mockProfileUnreachable userId s1.now), s1)

/-- `updateProfile` (source lines 131-156); the partial update object is a
field patch applied to each matched row. -/
def updateProfile (userId : String) (updates : Profile → Profile) (s : Store) :
    Option Profile × Store :=
  let (schemaExists, s1) := checkSchemaExists s
  if schemaExists then
    let (res, s2) := runUpdate s1 "profiles"
      (fun db =>
        { db with profiles :=
                    db.profiles.map
                      (fun p => if p.id == userId then updates p else p) })
      ((s1.db.profiles.filter (fun p => p.id == userId)).map updates)
    match res with
    | .error _ => (none, s2)
    | .ok rows =>
      match singleRow rows with
      | .error _ => (none, s2)
      | .ok p => (some p, s2)
  else
    (none, s1)

/-- `ensureProfileExists` (source lines 158-223): lookup with `.single()`;
a non-`PGRST116` fetch error is thrown (caught as null); a missing profile
is inserted with minimal fields and echoed back. -/
def ensureProfileExists (userId email fullName : String) (s : Store) :
    Option Profile × Store :=
  let (schemaExists, s1) := checkSchemaExists s
  if schemaExists then
    let (res, s2) :=
      runSingle s1 "profiles" (s1.db.profiles.filter (fun p => p.id == userId))
    match res with
    | .error e =>
      if e.code == "PGRST116" then
        let newP := insertedProfile userId email fullName s2.now
        let (ins, s3) := runInsert s2 "profiles"
          (fun db => { db with profiles := db.profiles ++ [newP] }) newP
        match ins with
        | .error _ => (none, s3)
        | .ok p => (some p, s3)
      else (none, s2)
    | .ok profile => (some profile, s2)
  else
    (some (mockProfileEnsure userId email fullName s1.now), s1)

/-- `[...new Set(xs)]`: deduplicate keeping first occurrences. -/
def dedupKeepFirst (xs : List String) : List String :=
  xs.foldl (fun acc a => if acc.contains a then acc else acc ++ [a]) []

/-- JS `new Map(pairs).get(k)`: later entries overwrite earlier ones, so a
lookup finds the last pair with the key. -/
def authorMapGet (authors : List AuthorSummary) (k : String) :
    Option AuthorSummary :=
  authors.reverse.find? (fun a => a.id == k)

/-- The shaping fallback that attaches the Unknown User placeholder to
every post (the author-fetch-failed branch of the denormalization). -/
def attachUnknown (posts : List Post) : List PostWithAuthor :=
  posts.map (fun post => ⟨post, unknownAuthor post.author_id⟩)

/-- The shaping step that attaches each post's author via the in-memory
author map, defaulting to the Unknown User placeholder. -/
def attachAuthors (posts : List Post) (authors : List AuthorSummary) :
    List PostWithAuthor :=
  posts.map (fun post =>
    ⟨post, (authorMapGet authors post.author_id).getD
      (unknownAuthor post.author_id)⟩)

/-- The shaping step of `getPostsByAuthor`'s success path: every post of
the author gets the single fetched author summary. -/
def attachConst (posts : List Post) (author : AuthorSummary) :
    List PostWithAuthor :=
  posts.map (fun post => ⟨post, author⟩)

/-- The fetch-and-shape tail of `getPosts` (source lines 250-306): range
read of the posts ordered by `created_at` descending, then the batch author
fetch and the in-memory attachment with the Unknown User fallback. -/
def getPostsFetch (offset limit : Nat) (s2 : Store) :
    List PostWithAuthor × Store :=
  let (postsRes, s3) :=
    runRange s2 "posts" (sortByKeyDesc Post.created_at s2.db.posts) offset limit
  match postsRes with
  | .error _ => ([], s3)
  | .ok posts =>
    if posts.length == 0 then ([], s3)
    else
      let authorIds := dedupKeepFirst (posts.map Post.author_id)
      let (authorsRes, s4) := runSelect s3 "profiles"
        ((s3.db.profiles.filter (fun p => authorIds.contains p.id)).map
          Profile.toAuthorSummary)
      match authorsRes with
      | .error _ => (attachUnknown posts, s4)
      | .ok authors => (attachAuthors posts authors, s4)

/-- `getPosts` (source lines 226-311): probe, exact count (a count error is
ignored and leaves the count null), the `count === 0` early return, then
the fetch tail at the clamped offset `min(page * limit, count || 0)`. -/
def getPosts (page limit : Nat) (s : Store) : List PostWithAuthor × Store :=
  let (schemaExists, s1) := checkSchemaExists s
  if schemaExists then
    let (countRes, s2) := runCount s1 "posts" s1.db.posts.length
    let count : Option Nat := match countRes with
      | .ok n => some n
      | .error _ => none
    if count == some 0 then ([], s2)
    else getPostsFetch (min (page * limit) (count.getD 0)) limit s2
  else
    ([], s1)

/-- `getPostsByAuthor` (source lines 313-380): probe, filtered ordered post
read, then a `.single()` author fetch; on author error every post gets the
Unknown User placeholder (on success `author || fallback` is just the
non-null author). -/
def getPostsByAuthor (authorId : String) (s : Store) :
    List PostWithAuthor × Store :=
  let (schemaExists, s1) := checkSchemaExists s
  if schemaExists then
    let (postsRes, s2) := runSelect s1 "posts"
      (sortByKeyDesc Post.created_at
        (s1.db.posts.filter (fun p => p.author_id == authorId)))
    match postsRes with
    | .error _ => ([], s2)
    | .ok posts =>
      if posts.length == 0 then ([], s2)
      else
        let (authorRes, s3) := runSingle s2 "profiles"
          ((s2.db.profiles.filter (fun p => p.id == authorId)).map
            Profile.toAuthorSummary)
        match authorRes with
        | .error _ => (attachUnknown posts, s3)
        | .ok author => (attachConst posts author, s3)
  else
    ([], s1)

/-- Caller-supplied fields of `createPost`. -/
structure NewPostInput where
  content : String
  author_id : String
  visibility : String
deriving DecidableEq, Repr

/-- `createPost` (source lines 382-422): insert with zeroed counters and
fresh timestamps; any error is thrown and caught as null. -/
def createPost (input : NewPostInput) (s : Store) : Option Post × Store :=
  let (schemaExists, s1) := checkSchemaExists s
  if schemaExists then
    let newPost : Post :=
      { id := toString s1.db.nextId, content := input.content,
        author_id := input.author_id, visibility := input.visibility,
        likes_count := 0, comments_count := 0, shares_count := 0,
        created_at := s1.now, updated_at := s1.now }
    let (res, s2) := runInsert s1 "posts"
      (fun db =>
        { db with posts := db.posts ++ [newPost], nextId := db.nextId + 1 })
      newPost
    match res with
    | .error _ => (none, s2)
    | .ok p => (some p, s2)
  else
    (none, s1)

/-- A connection row with the two profiles embedded by the relational
select of `getConnections`. -/
structure ConnectionJoined where
  requester_id : String
  recipient_id : String
  requester : Option Profile
  recipient : Option Profile
deriving DecidableEq, Repr

/-- `getConnections` (source lines 425-469): accepted connections touching
the user, each with both profiles embedded; the loop keeps the profile on
the far side of each row. -/
def getConnections (userId : String) (s : Store) : List Profile × Store :=
  let (schemaExists, s1) := checkSchemaExists s
  if schemaExists then
    let joined : List ConnectionJoined :=
      (s1.db.connections.filter (fun c =>
        (c.requester_id == userId || c.recipient_id == userId) &&
          c.status == "accepted")).map (fun c =>
        { requester_id := c.requester_id, recipient_id := c.recipient_id,
          requester := s1.db.profiles.find? (fun p => p.id == c.requester_id),
          recipient := s1.db.profiles.find? (fun p => p.id == c.recipient_id) })
    let (res, s2) := runSelect s1 "connections" joined
    match res with
    | .error _ => ([], s2)
    | .ok data =>
      (data.foldl (fun acc c =>
        if c.requester_id == userId && c.recipient.isSome then
          acc ++ [c.recipient.getD emptyProfile]
        else if c.recipient_id == userId && c.requester.isSome then
          acc ++ [c.requester.getD emptyProfile]
        else acc) [], s2)
  else
    ([], s1)

/-- The unordered-pair filter of `getConnectionStatus`'s `or(and(...),
and(...))` clause. -/
def connMatches (u t : String) (c : Connection) : Bool :=
  (c.requester_id == u && c.recipient_id == t) ||
    (c.requester_id == t && c.recipient_id == u)

/-- The status column of the rows matching the unordered pair. -/
def connStatusRows (db : DB) (u t : String) : List String :=
  (db.connections.filter (connMatches u t)).map Connection.status

/-- `getConnectionStatus` (source lines 471-498): `.single()` over the
unordered-pair filter; `PGRST116` falls through to `data?.status || null`,
other errors are thrown and caught as null. -/
def getConnectionStatus (userId targetUserId : String) (s : Store) :
    Option String × Store :=
  let (schemaExists, s1) := checkSchemaExists s
  if schemaExists then
    let (res, s2) := runSingle s1 "connections"
      (connStatusRows s1.db userId targetUserId)
    match res with
    | .error _ => (none, s2)
    | .ok st => (if st == "" then none else some st, s2)
  else
    (none, s1)

/-- `sendConnectionRequest` (source lines 500-529): insert a pending
connection; `updated_at` takes the store default, modelled as the insert
time. -/
def sendConnectionRequest (requesterId recipientId : String) (s : Store) :
    Option Connection × Store :=
  let (schemaExists, s1) := checkSchemaExists s
  if schemaExists then
    let newConn : Connection :=
      { id := toString s1.db.nextId, requester_id := requesterId,
        recipient_id := recipientId, status := "pending",
        created_at := s1.now, updated_at := s1.now }
    let (res, s2) := runInsert s1 "connections"
      (fun db =>
        { db with connections := db.connections ++ [newConn],
                  nextId := db.nextId + 1 })
      newConn
    match res with
    | .error _ => (none, s2)
    | .ok c => (some c, s2)
  else
    (none, s1)

/-- `getSuggestedConnections` (source lines 532-559): all profiles other
than the requester, capped at `limit`. -/
def getSuggestedConnections (userId : String) (limit : Nat) (s : Store) :
    List Profile × Store :=
  let (schemaExists, s1) := checkSchemaExists s
  if schemaExists then
    let (res, s2) := runSelect s1 "profiles"
      ((s1.db.profiles.filter (fun p => p.id != userId)).take limit)
    match res with
    | .error _ => ([], s2)
    | .ok data => (data, s2)
  else
    ([], s1)

/-- A connection row with both profiles embedded, as selected by
`getConnectionRequests`. -/
structure ConnectionWithProfile where
  conn : Connection
  requester : Option Profile
  recipient : Option Profile
deriving DecidableEq, Repr

/-- `getConnectionRequests` (source lines 561-590): pending connections to
the user, newest first, with embedded profiles; errors are thrown and
caught as the empty list. -/
def getConnectionRequests (userId : String) (s : Store) :
    List ConnectionWithProfile × Store :=
  let (schemaExists, s1) := checkSchemaExists s
  if schemaExists then
    let rows : List ConnectionWithProfile :=
      (sortByKeyDesc Connection.created_at
        (s1.db.connections.filter (fun c =>
          c.recipient_id == userId && c.status == "pending"))).map (fun c =>
        { conn := c,
          requester := s1.db.profiles.find? (fun p => p.id == c.requester_id),
          recipient := s1.db.profiles.find? (fun p => p.id == c.recipient_id) })
    let (res, s2) := runSelect s1 "connections" rows
    match res with
    | .error _ => ([], s2)
    | .ok data => (data, s2)
  else
    ([], s1)

/-- `acceptConnectionRequest` (source lines 592-618). -/
def acceptConnectionRequest (connectionId : String) (s : Store) :
    Bool × Store :=
  let (schemaExists, s1) := checkSchemaExists s
  if schemaExists then
    let (res, s2) := runUpdate s1 "connections"
      (fun db =>
        { db with connections := db.connections.map (fun c =>
            if c.id == connectionId then
              { c with status := "accepted", updated_at := s1.now }
            else c) })
      ()
    match res with
    | .error _ => (false, s2)
    | .ok _ => (true, s2)
  else
    (false, s1)

/-- `rejectConnectionRequest` (source lines 620-646). -/
def rejectConnectionRequest (connectionId : String) (s : Store) :
    Bool × Store :=
  let (schemaExists, s1) := checkSchemaExists s
  if schemaExists then
    let (res, s2) := runUpdate s1 "connections"
      (fun db =>
        { db with connections := db.connections.map (fun c =>
            if c.id == connectionId then
              { c with status := "rejected", updated_at := s1.now }
            else c) })
      ()
    match res with
    | .error _ => (false, s2)
    | .ok _ => (true, s2)
  else
    (false, s1)

/-- `getExperiences` (source lines 649-673). -/
def getExperiences (profileId : String) (s : Store) :
    List Experience × Store :=
  let (schemaExists, s1) := checkSchemaExists s
  if schemaExists then
    let (res, s2) := runSelect s1 "experiences"
      (sortByKeyDesc Experience.start_date
        (s1.db.experiences.filter (fun x => x.profile_id == profileId)))
    match res with
    | .error _ => ([], s2)
    | .ok data => (data, s2)
  else
    ([], s1)

/-- `getEducation` (source lines 676-700). -/
def getEducation (profileId : String) (s : Store) : List Education × Store :=
  let (schemaExists, s1) := checkSchemaExists s
  if schemaExists then
    let (res, s2) := runSelect s1 "education"
      (sortByKeyDesc Education.start_date
        (s1.db.education.filter (fun x => x.profile_id == profileId)))
    match res with
    | .error _ => ([], s2)
    | .ok data => (data, s2)
  else
    ([], s1)

/-- `getNotifications` (source lines 703-712): a stub that returns the
empty list without touching the store at all. -/
def getNotifications (_userId : String) (s : Store) :
    List Notification × Store :=
  ([], s)

/-- The upsert of `recordProfileView`, keyed by (viewer, profile). -/
def upsertView (l : List ProfileView) (v p : String) (t : Nat) :
    List ProfileView :=
  if l.any (fun r => r.viewer_id == v && r.profile_id == p) then
    l.map (fun r =>
      if r.viewer_id == v && r.profile_id == p then { r with viewed_at := t }
      else r)
  else l ++ [{ viewer_id := v, profile_id := p, viewed_at := t }]

/-- `recordProfileView` (source lines 715-739): self-views return before
the probe; the upsert's result is ignored. -/
def recordProfileView (viewerId profileId : String) (s : Store) :
    Unit × Store :=
  if viewerId == profileId then ((), s)
  else
    let (schemaExists, s1) := checkSchemaExists s
    if schemaExists then
      let (_, s2) := runUpsert s1 "profile_views"
        (fun db =>
          { db with profile_views :=
                      upsertView db.profile_views viewerId profileId s1.now })
      ((), s2)
    else
      ((), s1)

/-- Caller-supplied fields of `createComment`. -/
structure NewCommentInput where
  content : String
  post_id : String
  author_id : String
deriving DecidableEq, Repr

/-- `createComment` (source lines 742-773). -/
def createComment (input : NewCommentInput) (s : Store) :
    Option PostComment × Store :=
  let (schemaExists, s1) := checkSchemaExists s
  if schemaExists then
    let newComment : PostComment :=
      { id := toString s1.db.nextId, content := input.content,
        post_id := input.post_id, author_id := input.author_id,
        created_at := s1.now }
    let (res, s2) := runInsert s1 "post_comments"
      (fun db =>
        { db with post_comments := db.post_comments ++ [newComment],
                  nextId := db.nextId + 1 })
      newComment
    match res with
    | .error _ => (none, s2)
    | .ok c => (some c, s2)
  else
    (none, s1)

/-- A comment with the author profile embedded by `author:profiles(*)`. -/
structure CommentWithAuthor where
  comment : PostComment
  author : Option Profile
deriving DecidableEq, Repr

/-- `getPostComments` (source lines 775-802): comments of a post, oldest
first, with the author profile embedded. -/
def getPostComments (postId : String) (s : Store) :
    List CommentWithAuthor × Store :=
  let (schemaExists, s1) := checkSchemaExists s
  if schemaExists then
    let rows : List CommentWithAuthor :=
      (sortByKeyAsc PostComment.created_at
        (s1.db.post_comments.filter (fun c => c.post_id == postId))).map
        (fun c =>
          { comment := c,
            author := s1.db.profiles.find? (fun p => p.id == c.author_id) })
    let (res, s2) := runSelect s1 "post_comments" rows
    match res with
    | .error _ => ([], s2)
    | .ok data => (data, s2)
  else
    ([], s1)

/-- `likePost` (source lines 805-834): insert the like row (errors thrown
and caught as false), then fire the increment RPC whose result is
ignored. -/
def likePost (postId userId : String) (s : Store) : Bool × Store :=
  let (schemaExists, s1) := checkSchemaExists s
  if schemaExists then
    let newLike : PostLike :=
      { id := toString s1.db.nextId, post_id := postId, user_id := userId,
        created_at := s1.now }
    let (res, s2) := runInsert s1 "post_likes"
      (fun db =>
        { db with post_likes := db.post_likes ++ [newLike],
                  nextId := db.nextId + 1 })
      ()
    match res with
    | .error _ => (false, s2)
    | .ok _ =>
      let (_, s3) := runRpc s2 "increment_likes_count"
        (fun db =>
          { db with posts := db.posts.map (fun p =>
              if p.id == postId then { p with likes_count := p.likes_count + 1 }
              else p) })
      (true, s3)
  else
    (false, s1)

/-- `unlikePost` (source lines 836-863): delete the like row, then fire the
decrement RPC whose result is ignored. -/
def unlikePost (postId userId : String) (s : Store) : Bool × Store :=
  let (schemaExists, s1) := checkSchemaExists s
  if schemaExists then
    let (res, s2) := runDelete s1 "post_likes"
      (fun db =>
        { db with post_likes := db.post_likes.filter (fun r =>
            !(r.post_id == postId && r.user_id == userId)) })
    match res with
    | .error _ => (false, s2)
    | .ok _ =>
      let (_, s3) := runRpc s2 "decrement_likes_count"
        (fun db =>
          { db with posts := db.posts.map (fun p =>
              if p.id == postId then { p with likes_count := p.likes_count - 1 }
              else p) })
      (true, s3)
  else
    (false, s1)

/-- `isPostLiked` (source lines 865-893): `.single()` existence check; both
the `PGRST116` null-data path and the thrown path end in false. -/
def isPostLiked (postId userId : String) (s : Store) : Bool × Store :=
  let (schemaExists, s1) := checkSchemaExists s
  if schemaExists then
    let (res, s2) := runSingle s1 "post_likes"
      ((s1.db.post_likes.filter (fun r =>
        r.post_id == postId && r.user_id == userId)).map PostLike.id)
    match res with
    | .error _ => (false, s2)
    | .ok _ => (true, s2)
  else
    (false, s1)

/-- `createInstitution` (source lines 896-924). -/
def createInstitution (name : String) (s : Store) :
    Option Institution × Store :=
  let (schemaExists, s1) := checkSchemaExists s
  if schemaExists then
    let newInst : Institution :=
      { id := toString s1.db.nextId, name := name, created_at := s1.now,
        updated_at := s1.now }
    let (res, s2) := runInsert s1 "institutions"
      (fun db =>
        { db with institutions := db.institutions ++ [newInst],
                  nextId := db.nextId + 1 })
      newInst
    match res with
    | .error _ => (none, s2)
    | .ok i => (some i, s2)
  else
    (none, s1)

/-- `getInstitutions` (source lines 926-949). -/
def getInstitutions (s : Store) : List Institution × Store :=
  let (schemaExists, s1) := checkSchemaExists s
  if schemaExists then
    let (res, s2) := runSelect s1 "institutions"
      (sortByKeyDesc Institution.created_at s1.db.institutions)
    match res with
    | .error _ => ([], s2)
    | .ok data => (data, s2)
  else
    ([], s1)

/-- Caller-supplied fields of `createJob`. -/
structure NewJobInput where
  title : String
  company_id : String
  posted_by : String
deriving DecidableEq, Repr

/-- `createJob` (source lines 952-980). -/
def createJob (input : NewJobInput) (s : Store) : Option Job × Store :=
  let (schemaExists, s1) := checkSchemaExists s
  if schemaExists then
    let newJob : Job :=
      { id := toString s1.db.nextId, title := input.title,
        company_id := input.company_id, posted_by := input.posted_by,
        created_at := s1.now, updated_at := s1.now }
    let (res, s2) := runInsert s1 "jobs"
      (fun db =>
        { db with jobs := db.jobs ++ [newJob], nextId := db.nextId + 1 })
      newJob
    match res with
    | .error _ => (none, s2)
    | .ok j => (some j, s2)
  else
    (none, s1)

/-- A job with the company institution and posting profile embedded. -/
structure JobWithCompany where
  job : Job
  company : Option Institution
  posted_by_user : Option Profile
deriving DecidableEq, Repr

/-- `getJobs` (source lines 982-1009). -/
def getJobs (s : Store) : List JobWithCompany × Store :=
  let (schemaExists, s1) := checkSchemaExists s
  if schemaExists then
    let rows : List JobWithCompany :=
      (sortByKeyDesc Job.created_at s1.db.jobs).map (fun j =>
        { job := j,
          company := s1.db.institutions.find? (fun i => i.id == j.company_id),
          posted_by_user := s1.db.profiles.find? (fun p => p.id == j.posted_by) })
    let (res, s2) := runSelect s1 "jobs" rows
    match res with
    | .error _ => ([], s2)
    | .ok data => (data, s2)
  else
    ([], s1)

/-- Caller-supplied fields of `applyToJob`. -/
structure NewJobApplicationInput where
  job_id : String
  applicant_id : String
deriving DecidableEq, Repr

/-- `applyToJob` (source lines 1011-1039). -/
def applyToJob (input : NewJobApplicationInput) (s : Store) :
    Option JobApplication × Store :=
  let (schemaExists, s1) := checkSchemaExists s
  if schemaExists then
    let newApp : JobApplication :=
      { id := toString s1.db.nextId, job_id := input.job_id,
        applicant_id := input.applicant_id, created_at := s1.now,
        updated_at := s1.now }
    let (res, s2) := runInsert s1 "job_applications"
      (fun db =>
        { db with job_applications := db.job_applications ++ [newApp],
                  nextId := db.nextId + 1 })
      newApp
    match res with
    | .error _ => (none, s2)
    | .ok a => (some a, s2)
  else
    (none, s1)

/-- Caller-supplied fields of `createEvent`. -/
structure NewEventInput where
  title : String
  organizer_id : String
  start_date : Nat
deriving DecidableEq, Repr

/-- `createEvent` (source lines 1042-1070). -/
def createEvent (input : NewEventInput) (s : Store) : Option Event × Store :=
  let (schemaExists, s1) := checkSchemaExists s
  if schemaExists then
    let newEvent : Event :=
      { id := toString s1.db.nextId, title := input.title,
        organizer_id := input.organizer_id, start_date := input.start_date,
        created_at := s1.now, updated_at := s1.now }
    let (res, s2) := runInsert s1 "events"
      (fun db =>
        { db with events := db.events ++ [newEvent], nextId := db.nextId + 1 })
      newEvent
    match res with
    | .error _ => (none, s2)
    | .ok ev => (some ev, s2)
  else
    (none, s1)

/-- An event with the organizer profile embedded. -/
structure EventWithOrganizer where
  event : Event
  organizer : Option Profile
deriving DecidableEq, Repr

/-- `getEvents` (source lines 1072-1098): soonest first. -/
def getEvents (s : Store) : List EventWithOrganizer × Store :=
  let (schemaExists, s1) := checkSchemaExists s
  if schemaExists then
    let rows : List EventWithOrganizer :=
      (sortByKeyAsc Event.start_date s1.db.events).map (fun ev =>
        { event := ev,
          organizer := s1.db.profiles.find? (fun p => p.id == ev.organizer_id) })
    let (res, s2) := runSelect s1 "events" rows
    match res with
    | .error _ => ([], s2)
    | .ok data => (data, s2)
  else
    ([], s1)

/-- Caller-supplied fields of `registerForEvent`. -/
structure NewEventAttendeeInput where
  event_id : String
  attendee_id : String
deriving DecidableEq, Repr

/-- `registerForEvent` (source lines 1100-1127). -/
def registerForEvent (input : NewEventAttendeeInput) (s : Store) :
    Option EventAttendee × Store :=
  let (schemaExists, s1) := checkSchemaExists s
  if schemaExists then
    let newAtt : EventAttendee :=
      { id := toString s1.db.nextId, event_id := input.event_id,
        attendee_id := input.attendee_id, created_at := s1.now }
    let (res, s2) := runInsert s1 "event_attendees"
      (fun db =>
        { db with event_attendees := db.event_attendees ++ [newAtt],
                  nextId := db.nextId + 1 })
      newAtt
    match res with
    | .error _ => (none, s2)
    | .ok a => (some a, s2)
  else
    (none, s1)

/-- `followUser` (source lines 1130-1160). -/
def followUser (followerId followingId followerType followingType : String)
    (s : Store) : Option Follow × Store :=
  let (schemaExists, s1) := checkSchemaExists s
  if schemaExists then
    let newFollow : Follow :=
      { id := toString s1.db.nextId, follower_id := followerId,
        following_id := followingId, follower_type := followerType,
        following_type := followingType, created_at := s1.now }
    let (res, s2) := runInsert s1 "follows"
      (fun db =>
        { db with follows := db.follows ++ [newFollow],
                  nextId := db.nextId + 1 })
      newFollow
    match res with
    | .error _ => (none, s2)
    | .ok f => (some f, s2)
  else
    (none, s1)

/-- `unfollowUser` (source lines 1162-1186). -/
def unfollowUser (followerId followingId : String) (s : Store) :
    Bool × Store :=
  let (schemaExists, s1) := checkSchemaExists s
  if schemaExists then
    let (res, s2) := runDelete s1 "follows"
      (fun db =>
        { db with follows := db.follows.filter (fun f =>
            !(f.follower_id == followerId && f.following_id == followingId)) })
    match res with
    | .error _ => (false, s2)
    | .ok _ => (true, s2)
  else
    (false, s1)

/-- `isFollowing` (source lines 1188-1216): same shape as `isPostLiked`. -/
def isFollowing (followerId followingId : String) (s : Store) :
    Bool × Store :=
  let (schemaExists, s1) := checkSchemaExists s
  if schemaExists then
    let (res, s2) := runSingle s1 "follows"
      ((s1.db.follows.filter (fun f =>
        f.follower_id == followerId && f.following_id == followingId)).map
        Follow.id)
    match res with
    | .error _ => (false, s2)
    | .ok _ => (true, s2)
  else
    (false, s1)

/-- A follow row with one side's profile embedded. -/
structure FollowWithProfile where
  follow : Follow
  related : Option Profile
deriving DecidableEq, Repr

/-- `getFollowers` (source lines 1218-1245). -/
def getFollowers (userId : String) (s : Store) :
    List FollowWithProfile × Store :=
  let (schemaExists, s1) := checkSchemaExists s
  if schemaExists then
    let rows : List FollowWithProfile :=
      (sortByKeyDesc Follow.created_at
        (s1.db.follows.filter (fun f => f.following_id == userId))).map
        (fun f =>
          { follow := f,
            related := s1.db.profiles.find? (fun p => p.id == f.follower_id) })
    let (res, s2) := runSelect s1 "follows" rows
    match res with
    | .error _ => ([], s2)
    | .ok data => (data, s2)
  else
    ([], s1)

/-- `getFollowing` (source lines 1247-1274). -/
def getFollowing (userId : String) (s : Store) :
    List FollowWithProfile × Store :=
  let (schemaExists, s1) := checkSchemaExists s
  if schemaExists then
    let rows : List FollowWithProfile :=
      (sortByKeyDesc Follow.created_at
        (s1.db.follows.filter (fun f => f.follower_id == userId))).map
        (fun f =>
          { follow := f,
            related := s1.db.profiles.find? (fun p => p.id == f.following_id) })
    let (res, s2) := runSelect s1 "follows" rows
    match res with
    | .error _ => ([], s2)
    | .ok data => (data, s2)
  else
    ([], s1)

/-- The ids the user already follows, as fetched by
`getSuggestedInstitutions`. -/
def followedIds (db : DB) (userId : String) : List String :=
  (db.follows.filter (fun f => f.follower_id == userId)).map
    Follow.following_id

/-- `getSuggestedInstitutions` (source lines 1276-1314): the follow-list
fetch's error is ignored (null data becomes the empty id list); the
`not in` exclusion is only added when that list is non-empty; there is no
requester exclusion. -/
def getSuggestedInstitutions (userId : String) (limit : Nat) (s : Store) :
    List Profile × Store :=
  let (schemaExists, s1) := checkSchemaExists s
  if schemaExists then
    let (folRes, s2) := runSelect s1 "follows" (followedIds s1.db userId)
    let followingIds : List String := match folRes with
      | .ok ids => ids
      | .error _ => []
    let (res, s3) := runSelect s2 "profiles"
      ((s2.db.profiles.filter (fun p =>
        p.profile_type == "institution" &&
          (if followingIds.length > 0 then !(followingIds.contains p.id)
           else true))).take limit)
    match res with
    | .error _ => ([], s3)
    | .ok data => (data, s3)
  else
    ([], s1)

/-! ## Helper lemmas -/

theorem connMatches_comm (u t : String) (c : Connection) :
    connMatches u t c = connMatches t u c := by
  unfold connMatches
  exact Bool.or_comm _ _

theorem connStatusRows_comm (db : DB) (u t : String) :
    connStatusRows db u t = connStatusRows db t u := by
  unfold connStatusRows
  congr 1
  exact List.filter_congr (fun c _ => connMatches_comm u t c)

theorem sortByKeyDesc_pairwise (key : α → Nat) (l : List α) :
    (sortByKeyDesc key l).Pairwise (fun a b => key b ≤ key a) := by
  haveI : IsTotal α (fun a b => key b ≤ key a) :=
    ⟨fun a b => Nat.le_total (key b) (key a)⟩
  haveI : IsTrans α (fun a b => key b ≤ key a) :=
    ⟨fun _ _ _ hab hbc => Nat.le_trans hbc hab⟩
  exact List.sorted_insertionSort _ l

theorem mem_sortByKeyDesc {key : α → Nat} {l : List α} {a : α} :
    a ∈ sortByKeyDesc key l ↔ a ∈ l :=
  List.mem_insertionSort _

theorem singleRow_ok {rows : List α} {a : α} (h : singleRow rows = .ok a) :
    rows = [a] := by
  match rows with
  | [] => simp [singleRow] at h
  | [x] => simp [singleRow] at h; rw [h]
  | x :: y :: t => simp [singleRow] at h

theorem authorMapGet_id {authors : List AuthorSummary} {k : String}
    {a : AuthorSummary} (h : authorMapGet authors k = some a) : a.id = k := by
  have hp := List.find?_some h
  simpa using hp

/-- In a table whose ids are distinct, an id-equality filter returns at
most one row. -/
theorem filter_id_len_le_one {l : List Profile}
    (h : (l.map Profile.id).Nodup) (k : String) :
    (l.filter (fun p => p.id == k)).length ≤ 1 := by
  induction l with
  | nil => simp
  | cons a t ih =>
    rw [List.map_cons, List.nodup_cons] at h
    by_cases hk : a.id == k
    · rw [List.filter_cons, if_pos hk]
      have ht : t.filter (fun p => p.id == k) = [] := by
        rw [List.filter_eq_nil_iff]
        intro p hp hpk
        refine h.1 ?_
        have : p.id = k := by simpa using hpk
        have hak : a.id = k := by simpa using hk
        rw [hak, ← this]
        exact List.mem_map_of_mem Profile.id hp
      simp [ht]
    · rw [List.filter_cons, if_neg hk]
      exact ih h.2

theorem runSelect_fst_ok {α : Type} {s : Store} {table : String}
    {rows data : List α} (h : (runSelect s table rows).1 = .ok data) :
    data = rows := by
  unfold runSelect callStore at h
  cases hf : s.faults s.callIdx <;> rw [hf] at h <;> simp_all

theorem runRange_fst_ok {α : Type} {s : Store} {table : String}
    {rows data : List α} {off lim : Nat}
    (h : (runRange s table rows off lim).1 = .ok data) :
    data = (rows.drop off).take lim := by
  unfold runRange callStore at h
  cases hf : s.faults s.callIdx <;> rw [hf] at h <;> simp_all

theorem runSingle_fst_ok {α : Type} {s : Store} {table : String}
    {rows : List α} {a : α} (h : (runSingle s table rows).1 = .ok a) :
    rows = [a] := by
  unfold runSingle callStore at h
  cases hf : s.faults s.callIdx <;> rw [hf] at h <;> simp_all
  exact singleRow_ok h

theorem runCount_fst_ok {s : Store} {table : String} {n m : Nat}
    (h : (runCount s table n).1 = .ok m) : m = n := by
  unfold runCount callStore at h
  cases hf : s.faults s.callIdx <;> rw [hf] at h <;> simp_all

theorem attachUnknown_author_id {posts : List Post} {pw : PostWithAuthor}
    (h : pw ∈ attachUnknown posts) : pw.author.id = pw.post.author_id := by
  rcases List.mem_map.1 h with ⟨post, _, rfl⟩
  rfl

theorem attachAuthors_author_id {posts : List Post}
    {authors : List AuthorSummary} {pw : PostWithAuthor}
    (h : pw ∈ attachAuthors posts authors) :
    pw.author.id = pw.post.author_id := by
  rcases List.mem_map.1 h with ⟨post, _, rfl⟩
  dsimp
  cases hg : authorMapGet authors post.author_id with
  | none => simp [hg, unknownAuthor]
  | some a => simp [hg, authorMapGet_id hg]

theorem attachConst_mem {posts : List Post} {author : AuthorSummary}
    {pw : PostWithAuthor} (h : pw ∈ attachConst posts author) :
    pw.post ∈ posts ∧ pw.author = author := by
  rcases List.mem_map.1 h with ⟨post, hp, rfl⟩
  exact ⟨hp, rfl⟩

theorem getPostsFetch_author_id {offset limit : Nat} {s2 : Store}
    {pw : PostWithAuthor} (hmem : pw ∈ (getPostsFetch offset limit s2).1) :
    pw.author.id = pw.post.author_id := by
  unfold getPostsFetch at hmem
  cases hrr : runRange s2 "posts" (sortByKeyDesc Post.created_at s2.db.posts)
      offset limit with
  | mk rres s3 =>
  rw [hrr] at hmem
  cases rres with
  | error e => simp at hmem
  | ok posts =>
    by_cases hlen : (posts.length == 0) = true
    · simp only [hlen, if_true] at hmem
      simp at hmem
    · simp only [hlen, if_false] at hmem
      cases hsel : runSelect s3 "profiles"
          ((s3.db.profiles.filter (fun p =>
            (dedupKeepFirst (posts.map Post.author_id)).contains p.id)).map
            Profile.toAuthorSummary) with
      | mk ares s4 =>
      rw [hsel] at hmem
      cases ares with
      | error e => exact attachUnknown_author_id hmem
      | ok authors => exact attachAuthors_author_id hmem

theorem checkSchemaExists_snd (s : Store) :
    (checkSchemaExists s).2 =
      { s with callIdx := s.callIdx + 1,
               trace := s.trace ++ [StoreEvent.read "profiles"] } := rfl

theorem runSelect_snd {α : Type} (s : Store) (table : String) (rows : List α) :
    (runSelect s table rows).2 =
      { s with callIdx := s.callIdx + 1,
               trace := s.trace ++ [StoreEvent.read table] } := by
  unfold runSelect callStore
  cases s.faults s.callIdx <;> rfl

theorem runSingle_fst_ok_fault {α : Type} {s : Store} {table : String}
    {rows : List α} {a : α} (h : (runSingle s table rows).1 = .ok a) :
    s.faults s.callIdx = none := by
  unfold runSingle callStore at h
  cases hf : s.faults s.callIdx with
  | none => rfl
  | some e => rw [hf] at h; simp at h

theorem attachUnknown_fallback {posts : List Post} {pw : PostWithAuthor}
    (h : pw ∈ attachUnknown posts) :
    pw.author = unknownAuthor pw.post.author_id := by
  rcases List.mem_map.1 h with ⟨post, _, rfl⟩
  rfl

theorem attach_pairwise {posts : List Post} {f : Post → PostWithAuthor}
    (hf : ∀ p, (f p).post = p)
    (hp : posts.Pairwise (fun a b => b.created_at ≤ a.created_at)) :
    (posts.map f).Pairwise
      (fun x y => y.post.created_at ≤ x.post.created_at) := by
  rw [List.pairwise_map]
  refine hp.imp ?_
  intro a b hab
  rw [hf a, hf b]
  exact hab

/-! ## Claim theorems -/

/-- C1: with the store reachable (no injected fault, probe succeeds) and no
profile row matching the id, `getProfile` returns null rather than a
synthesized placeholder: `maybeSingle` reports a missing row as a null row
without an error, so the `PGRST116` placeholder branch cannot fire on a
merely-missing record. The trace shows both the probe and the lookup ran. -/
theorem getProfile_missing_record_returns_null :
    (getProfile "u1" (mkStore emptyDB noFaults 0)).1 = none ∧
    (getProfile "u1" (mkStore emptyDB noFaults 0)).2.trace =
      [StoreEvent.read "profiles", StoreEvent.read "profiles"] := by
  decide

/-- C2: when the store-reachability probe fails, `getProfile` returns the
synthesized placeholder whose id is the given id and whose remaining fields
are the generic defaults; the store is unchanged and the whole trace of the
call is the single probe read, so no write was issued. -/
theorem getProfile_unreachable_placeholder (s : Store) (uid : String)
    (e : StoreError) (h : s.faults s.callIdx = some e) :
    (getProfile uid s).1 = some (mockProfileUnreachable uid s.now) ∧
    (getProfile uid s).2.db = s.db ∧
    (getProfile uid s).2.trace = s.trace ++ [StoreEvent.read "profiles"] := by
  simp [getProfile, checkSchemaExists, callStore, h]

/-- Witness for C2 at a concrete unreachable store. -/
theorem getProfile_unreachable_placeholder_witness :
    (getProfile "u7" (mkStore emptyDB (allFail { code := "boom" }) 5)).1 =
      some (mockProfileUnreachable "u7" 5) ∧
    (getProfile "u7" (mkStore emptyDB (allFail { code := "boom" }) 5)).2.db =
      emptyDB ∧
    (getProfile "u7" (mkStore emptyDB (allFail { code := "boom" }) 5)).2.trace =
      [] ++ [StoreEvent.read "profiles"] :=
  getProfile_unreachable_placeholder
    (mkStore emptyDB (allFail { code := "boom" }) 5) "u7" { code := "boom" } rfl

/-- C3: `getConnectionStatus` is direction-independent: for every store
state and every pair of identifiers, swapping the two arguments yields the
same result (and the same final state), because the stored filter matches
the unordered pair. -/
theorem getConnectionStatus_direction_independent
    (userId targetUserId : String) (s : Store) :
    getConnectionStatus userId targetUserId s =
      getConnectionStatus targetUserId userId s := by
  unfold getConnectionStatus
  cases hcs : checkSchemaExists s with
  | mk schemaExists s1 =>
    simp only []
    rw [connStatusRows_comm]

set_option maxRecDepth 8000 in
/-- C9: `getNotifications` returns the empty list and performs no remote
call at all — the state (trace and call counter included) is returned
untouched, for every store, reachable or not. Every other exported
operation of the layer does issue at least one remote call on some input
(witnessed here on a concrete store for each of them), so this is the one
operation deviating from the schema-guarded pattern. -/
theorem getNotifications_no_remote_calls :
    (∀ uid s, getNotifications uid s = ([], s)) ∧
    ((getProfile "u" (mkStore emptyDB noFaults 0)).2.trace ≠ [] ∧
     (updateProfile "u" id (mkStore emptyDB noFaults 0)).2.trace ≠ [] ∧
     (ensureProfileExists "u" "e" "n" (mkStore emptyDB noFaults 0)).2.trace ≠ [] ∧
     (getPosts 0 10 (mkStore emptyDB noFaults 0)).2.trace ≠ [] ∧
     (getPostsByAuthor "u" (mkStore emptyDB noFaults 0)).2.trace ≠ [] ∧
     (createPost { content := "c", author_id := "a", visibility := "public" }
       (mkStore emptyDB noFaults 0)).2.trace ≠ [] ∧
     (getConnections "u" (mkStore emptyDB noFaults 0)).2.trace ≠ [] ∧
     (getConnectionStatus "a" "b" (mkStore emptyDB noFaults 0)).2.trace ≠ [] ∧
     (sendConnectionRequest "a" "b" (mkStore emptyDB noFaults 0)).2.trace ≠ [] ∧
     (getSuggestedConnections "u" 5 (mkStore emptyDB noFaults 0)).2.trace ≠ [] ∧
     (getConnectionRequests "u" (mkStore emptyDB noFaults 0)).2.trace ≠ [] ∧
     (acceptConnectionRequest "c" (mkStore emptyDB noFaults 0)).2.trace ≠ [] ∧
     (rejectConnectionRequest "c" (mkStore emptyDB noFaults 0)).2.trace ≠ [] ∧
     (getExperiences "u" (mkStore emptyDB noFaults 0)).2.trace ≠ [] ∧
     (getEducation "u" (mkStore emptyDB noFaults 0)).2.trace ≠ [] ∧
     (recordProfileView "a" "b" (mkStore emptyDB noFaults 0)).2.trace ≠ [] ∧
     (createComment { content := "c", post_id := "p", author_id := "a" }
       (mkStore emptyDB noFaults 0)).2.trace ≠ [] ∧
     (getPostComments "p" (mkStore emptyDB noFaults 0)).2.trace ≠ [] ∧
     (likePost "p" "u" (mkStore emptyDB noFaults 0)).2.trace ≠ [] ∧
     (unlikePost "p" "u" (mkStore emptyDB noFaults 0)).2.trace ≠ [] ∧
     (isPostLiked "p" "u" (mkStore emptyDB noFaults 0)).2.trace ≠ [] ∧
     (createInstitution "i" (mkStore emptyDB noFaults 0)).2.trace ≠ [] ∧
     (getInstitutions (mkStore emptyDB noFaults 0)).2.trace ≠ [] ∧
     (createJob { title := "t", company_id := "c", posted_by := "p" }
       (mkStore emptyDB noFaults 0)).2.trace ≠ [] ∧
     (getJobs (mkStore emptyDB noFaults 0)).2.trace ≠ [] ∧
     (applyToJob { job_id := "j", applicant_id := "a" }
       (mkStore emptyDB noFaults 0)).2.trace ≠ [] ∧
     (createEvent { title := "t", organizer_id := "o", start_date := 1 }
       (mkStore emptyDB noFaults 0)).2.trace ≠ [] ∧
     (getEvents (mkStore emptyDB noFaults 0)).2.trace ≠ [] ∧
     (registerForEvent { event_id := "e", attendee_id := "a" }
       (mkStore emptyDB noFaults 0)).2.trace ≠ [] ∧
     (followUser "a" "b" "individual" "institution"
       (mkStore emptyDB noFaults 0)).2.trace ≠ [] ∧
     (unfollowUser "a" "b" (mkStore emptyDB noFaults 0)).2.trace ≠ [] ∧
     (isFollowing "a" "b" (mkStore emptyDB noFaults 0)).2.trace ≠ [] ∧
     (getFollowers "u" (mkStore emptyDB noFaults 0)).2.trace ≠ [] ∧
     (getFollowing "u" (mkStore emptyDB noFaults 0)).2.trace ≠ [] ∧
     (getSuggestedInstitutions "u" 5 (mkStore emptyDB noFaults 0)).2.trace ≠ []) := by
  refine ⟨fun _ _ => rfl, ?_⟩
  repeat' apply And.intro
  all_goals decide

/-- C10: every `PostWithAuthor` returned by `getPosts` or
`getPostsByAuthor` satisfies `author.id = author_id`: the attached author
summary — whether from the batch map, the single fetch, or the Unknown
User placeholder — always carries the post's own author id. -/
theorem post_author_id_invariant (s : Store) (page limit : Nat)
    (authorId : String) (pw : PostWithAuthor) :
    (pw ∈ (getPosts page limit s).1 → pw.author.id = pw.post.author_id) ∧
    (pw ∈ (getPostsByAuthor authorId s).1 →
      pw.author.id = pw.post.author_id) := by
  constructor
  · intro hmem
    unfold getPosts at hmem
    cases hcs : checkSchemaExists s with
    | mk ok s1 =>
    rw [hcs] at hmem
    cases ok with
    | false => simp at hmem
    | true =>
    simp only [if_true] at hmem
    cases hrc : runCount s1 "posts" s1.db.posts.length with
    | mk cres s2 =>
    rw [hrc] at hmem
    cases cres with
    | error e =>
      simp only [] at hmem
      rw [if_neg (by simp)] at hmem
      exact getPostsFetch_author_id hmem
    | ok n =>
      by_cases hn : ((some n : Option Nat) == some 0) = true
      · simp only [] at hmem
        rw [if_pos hn] at hmem
        simp at hmem
      · simp only [] at hmem
        rw [if_neg hn] at hmem
        exact getPostsFetch_author_id hmem
  · intro hmem
    unfold getPostsByAuthor at hmem
    cases hcs : checkSchemaExists s with
    | mk ok s1 =>
    rw [hcs] at hmem
    cases ok with
    | false => simp at hmem
    | true =>
    simp only [if_true] at hmem
    cases hps : runSelect s1 "posts"
        (sortByKeyDesc Post.created_at
          (s1.db.posts.filter (fun p => p.author_id == authorId))) with
    | mk pres s2 =>
    rw [hps] at hmem
    cases pres with
    | error e => simp at hmem
    | ok posts =>
      by_cases hlen : (posts.length == 0) = true
      · simp only [hlen, if_true] at hmem
        simp at hmem
      · simp only [hlen, if_false] at hmem
        cases hau : runSingle s2 "profiles"
            ((s2.db.profiles.filter (fun p => p.id == authorId)).map
              Profile.toAuthorSummary) with
        | mk ares s3 =>
        rw [hau] at hmem
        cases ares with
        | error e => exact attachUnknown_author_id hmem
        | ok author =>
          obtain ⟨hpmem, hpa⟩ := attachConst_mem hmem
          have hrows : ((s2.db.profiles.filter (fun p => p.id == authorId)).map
              Profile.toAuthorSummary) = [author] :=
            runSingle_fst_ok (by rw [hau])
          have hauthor_id : author.id = authorId := by
            have : author ∈ ((s2.db.profiles.filter
                (fun p => p.id == authorId)).map Profile.toAuthorSummary) := by
              rw [hrows]
              exact List.mem_singleton.2 rfl
            rcases List.mem_map.1 this with ⟨q, hq, rfl⟩
            have := List.mem_filter.1 hq
            simpa [Profile.toAuthorSummary] using this.2
          have hposts : posts = sortByKeyDesc Post.created_at
              (s1.db.posts.filter (fun p => p.author_id == authorId)) :=
            runSelect_fst_ok (by rw [hps])
          have hpostmem : pw.post ∈ s1.db.posts.filter
              (fun p => p.author_id == authorId) := by
            rw [hposts] at hpmem
            exact mem_sortByKeyDesc.1 hpmem
          have hpid : pw.post.author_id = authorId := by
            have := List.mem_filter.1 hpostmem
            simpa using this.2
          rw [hpa, hauthor_id, hpid]

/-- Profile used by the C10 witness store. -/
def w10prof : Profile :=
  { emptyProfile with id := "a", full_name := "Alice" }

/-- Post used by the C10 witness store. -/
def w10post : Post :=
  { id := "1", content := "x", author_id := "a", visibility := "public",
    likes_count := 0, comments_count := 0, shares_count := 0,
    created_at := 3, updated_at := 3 }

/-- Store used by the C10 witness. -/
def w10db : DB := { emptyDB with profiles := [w10prof], posts := [w10post] }

/-- The element both queries return at the C10 witness store. -/
def w10pw : PostWithAuthor := ⟨w10post, w10prof.toAuthorSummary⟩

/-- Witness for C10 at a concrete store: the element is really returned and
the theorem yields the invariant for it. -/
theorem post_author_id_invariant_witness :
    w10pw ∈ (getPosts 0 10 (mkStore w10db noFaults 0)).1 ∧
    w10pw ∈ (getPostsByAuthor "a" (mkStore w10db noFaults 0)).1 ∧
    w10pw.author.id = w10pw.post.author_id :=
  ⟨by decide, by decide,
   (post_author_id_invariant (mkStore w10db noFaults 0) 0 10 "a" w10pw).1
     (by decide)⟩

/-- First post of the C6 counterexample store. -/
def c6post1 : Post :=
  { id := "1", content := "x", author_id := "a", visibility := "public",
    likes_count := 0, comments_count := 0, shares_count := 0,
    created_at := 5, updated_at := 5 }

/-- Second post of the C6 counterexample store: same author and the same
`created_at` timestamp. -/
def c6post2 : Post := { c6post1 with id := "2" }

/-- C6 counterexample store: two posts by the same author created at the
same timestamp (nothing prevents equal `created_at` values: `createPost`
stamps rows with the current time, so two quick inserts tie). -/
def c6db : DB :=
  { emptyDB with profiles := [{ emptyProfile with id := "a" }],
                 posts := [c6post1, c6post2] }

/-- C6 counterexample: with two equal `created_at` timestamps the returned
order is not strictly descending — the claim's "strictly descending
created_at order" fails; the order is only non-increasing. -/
theorem getPostsByAuthor_strict_order_cex :
    ¬ ((getPostsByAuthor "a" (mkStore c6db noFaults 0)).1.Pairwise
      (fun x y => y.post.created_at < x.post.created_at)) := by
  decide

/-- C6 (amended): `getPostsByAuthor` returns posts in non-increasing
(descending with ties) `created_at` order; every returned element carries
an author field by construction, and that field is the Unknown User
placeholder whenever the author's profile record is missing (empty filter)
or the author fetch fails (a fault at the third call of the operation). -/
theorem getPostsByAuthor_order_and_author_fallback (s : Store)
    (authorId : String) :
    ((getPostsByAuthor authorId s).1.Pairwise
      (fun x y => y.post.created_at ≤ x.post.created_at)) ∧
    (s.db.profiles.filter (fun p => p.id == authorId) = [] →
      ∀ pw ∈ (getPostsByAuthor authorId s).1,
        pw.author = unknownAuthor pw.post.author_id) ∧
    (∀ e, s.faults (s.callIdx + 2) = some e →
      ∀ pw ∈ (getPostsByAuthor authorId s).1,
        pw.author = unknownAuthor pw.post.author_id) := by
  unfold getPostsByAuthor
  cases hcs : checkSchemaExists s with
  | mk ok s1 =>
  have hs1 : s1 =
      { s with callIdx := s.callIdx + 1,
               trace := s.trace ++ [StoreEvent.read "profiles"] } := by
    rw [← checkSchemaExists_snd s, hcs]
  cases ok with
  | false => simp
  | true =>
  simp only [if_true]
  cases hps : runSelect s1 "posts"
      (sortByKeyDesc Post.created_at
        (s1.db.posts.filter (fun p => p.author_id == authorId))) with
  | mk pres s2 =>
  have hs2 : s2 =
      { s1 with callIdx := s1.callIdx + 1,
                trace := s1.trace ++ [StoreEvent.read "posts"] } := by
    rw [← runSelect_snd s1 "posts" (sortByKeyDesc Post.created_at
      (s1.db.posts.filter (fun p => p.author_id == authorId))), hps]
  cases pres with
  | error e => simp
  | ok posts =>
    have hposts : posts = sortByKeyDesc Post.created_at
        (s1.db.posts.filter (fun p => p.author_id == authorId)) :=
      runSelect_fst_ok (by rw [hps])
    have hsorted : posts.Pairwise (fun a b => b.created_at ≤ a.created_at) := by
      rw [hposts]
      exact sortByKeyDesc_pairwise Post.created_at _
    by_cases hlen : (posts.length == 0) = true
    · simp only [hlen, if_true]
      simp
    · simp only [hlen, if_false]
      cases hau : runSingle s2 "profiles"
          ((s2.db.profiles.filter (fun p => p.id == authorId)).map
            Profile.toAuthorSummary) with
      | mk ares s3 =>
      cases ares with
      | error e =>
        refine ⟨attach_pairwise (fun p => rfl) hsorted, ?_, ?_⟩
        · intro _ pw hpw
          exact attachUnknown_fallback hpw
        · intro _ _ pw hpw
          exact attachUnknown_fallback hpw
      | ok author =>
        refine ⟨attach_pairwise (fun p => rfl) hsorted, ?_, ?_⟩
        · intro hfilter
          have hrows : ((s2.db.profiles.filter (fun p => p.id == authorId)).map
              Profile.toAuthorSummary) = [author] :=
            runSingle_fst_ok (by rw [hau])
          rw [hs2, hs1] at hrows
          simp only [] at hrows
          rw [hfilter] at hrows
          simp at hrows
        · intro e hfault
          have hnof : s2.faults s2.callIdx = none :=
            runSingle_fst_ok_fault (by rw [hau])
          rw [hs2, hs1] at hnof
          simp only [] at hnof
          rw [hfault] at hnof
          simp at hnof

/-- Fault schedule of the C6 witness: the author fetch (third call) fails. -/
def w6faults : Nat → Option StoreError :=
  fun i => if i == 2 then some { code := "boom" } else none

/-- C6 witness store: a post by an author whose profile row is absent. -/
def w6s : Store := mkStore { emptyDB with posts := [c6post1] } w6faults 0

/-- Witness for C6 at a concrete store, discharging the missing-profile and
fetch-fault hypotheses. -/
theorem getPostsByAuthor_order_and_author_fallback_witness :
    ((getPostsByAuthor "a" w6s).1.Pairwise
      (fun x y => y.post.created_at ≤ x.post.created_at)) ∧
    (∀ pw ∈ (getPostsByAuthor "a" w6s).1,
      pw.author = unknownAuthor pw.post.author_id) ∧
    (∀ pw ∈ (getPostsByAuthor "a" w6s).1,
      pw.author = unknownAuthor pw.post.author_id) :=
  ⟨(getPostsByAuthor_order_and_author_fallback w6s "a").1,
   (getPostsByAuthor_order_and_author_fallback w6s "a").2.1 (by decide),
   (getPostsByAuthor_order_and_author_fallback w6s "a").2.2
     { code := "boom" } (by decide)⟩

theorem runSelect_fst_error {α : Type} {s : Store} {table : String}
    {rows : List α} {e : StoreError}
    (h : (runSelect s table rows).1 = .error e) :
    s.faults s.callIdx = some e := by
  unfold runSelect callStore at h
  cases hf : s.faults s.callIdx <;> rw [hf] at h <;> simp_all

/-- C7 counterexample store: the requester's own profile is an institution
profile and the requester follows nobody. -/
def c7db : DB :=
  { emptyDB with
      profiles :=
        [{ emptyProfile with id := "u", profile_type := "institution" }] }

/-- C7 counterexample: `getSuggestedInstitutions` has no requester
exclusion (`getSuggestedConnections`'s `.neq('id', userId)` has no
counterpart there), so the requester's own institution profile is
returned. -/
theorem getSuggestedInstitutions_includes_requester_cex :
    ∃ p ∈ (getSuggestedInstitutions "u" 10 (mkStore c7db noFaults 0)).1,
      p.id = "u" := by
  decide

/-- C7 (amended): both suggestion queries return at most `limit` profiles;
`getSuggestedConnections` never returns the requester's own profile;
`getSuggestedInstitutions` returns only institution-type profiles and,
when its follow-list fetch succeeds, excludes every profile the requester
already follows — but it does not exclude the requester's own profile. -/

theorem suggested_limit_and_exclusions (s : Store) (uid : String) (limit : Nat) :
    (getSuggestedConnections uid limit s).1.length ≤ limit ∧
    (∀ p ∈ (getSuggestedConnections uid limit s).1, p.id ≠ uid) ∧
    (getSuggestedInstitutions uid limit s).1.length ≤ limit ∧
    (∀ p ∈ (getSuggestedInstitutions uid limit s).1,
      p.profile_type = "institution") ∧
    (s.faults (s.callIdx + 1) = none →
      ∀ p ∈ (getSuggestedInstitutions uid limit s).1,
        p.id ∉ followedIds s.db uid) := by
  have hconn : (getSuggestedConnections uid limit s).1.length ≤ limit ∧
      (∀ p ∈ (getSuggestedConnections uid limit s).1, p.id ≠ uid) := by
    unfold getSuggestedConnections
    cases hcs : checkSchemaExists s with
    | mk ok s1 =>
    cases ok with
    | false => simp
    | true =>
      simp only [if_true]
      cases hr : runSelect s1 "profiles"
          ((s1.db.profiles.filter (fun p => p.id != uid)).take limit) with
      | mk res s2 =>
      cases res with
      | error e => simp
      | ok data =>
        have hdata : data =
            (s1.db.profiles.filter (fun p => p.id != uid)).take limit :=
          runSelect_fst_ok (by rw [hr])
        constructor
        · simp only [hdata]
          exact List.length_take_le _ _
        · intro p hp
          rw [hdata] at hp
          have := List.mem_filter.1 (List.mem_of_mem_take hp)
          simpa using this.2
  refine ⟨hconn.1, hconn.2, ?_⟩
  unfold getSuggestedInstitutions
  cases hcs : checkSchemaExists s with
  | mk ok s1 =>
  have hs1 : s1 =
      { s with callIdx := s.callIdx + 1,
               trace := s.trace ++ [StoreEvent.read "profiles"] } := by
    rw [← checkSchemaExists_snd s, hcs]
  cases ok with
  | false => simp
  | true =>
  simp only [if_true]
  cases hfol : runSelect s1 "follows" (followedIds s1.db uid) with
  | mk folRes s2 =>
  have hs2 : s2 =
      { s1 with callIdx := s1.callIdx + 1,
                trace := s1.trace ++ [StoreEvent.read "follows"] } := by
    rw [← runSelect_snd s1 "follows" (followedIds s1.db uid), hfol]
  -- the second select is over s2.db = s1.db = s.db
  cases folRes with
  | error e =>
    simp only []
    cases hpr : runSelect s2 "profiles"
        ((s2.db.profiles.filter (fun p =>
          p.profile_type == "institution" &&
            (if ([] : List String).length > 0 then
              !(([] : List String).contains p.id) else true))).take limit) with
    | mk res s3 =>
    cases res with
    | error e2 => simp
    | ok data =>
      have hdata : data = ((s2.db.profiles.filter (fun p =>
          p.profile_type == "institution" &&
            (if ([] : List String).length > 0 then
              !(([] : List String).contains p.id) else true))).take limit) :=
        runSelect_fst_ok (by rw [hpr])
      refine ⟨?_, ?_, ?_⟩
      · simp only [hdata]
        exact List.length_take_le _ _
      · intro p hp
        rw [hdata] at hp
        have hpred := (List.mem_filter.1 (List.mem_of_mem_take hp)).2
        simp only [Bool.and_eq_true, beq_iff_eq] at hpred
        exact hpred.1
      · intro hnf
        -- the follows fetch faulted, contradicting the no-fault hypothesis
        have := runSelect_fst_error (by rw [hfol])
        rw [hs1] at this
        simp only [] at this
        rw [hnf] at this
        simp at this
  | ok ids =>
    have hids : ids = followedIds s1.db uid := runSelect_fst_ok (by rw [hfol])
    simp only []
    cases hpr : runSelect s2 "profiles"
        ((s2.db.profiles.filter (fun p =>
          p.profile_type == "institution" &&
            (if ids.length > 0 then !(ids.contains p.id) else true))).take
          limit) with
    | mk res s3 =>
    cases res with
    | error e2 => simp
    | ok data =>
      have hdata : data = ((s2.db.profiles.filter (fun p =>
          p.profile_type == "institution" &&
            (if ids.length > 0 then !(ids.contains p.id) else true))).take
          limit) :=
        runSelect_fst_ok (by rw [hpr])
      refine ⟨?_, ?_, ?_⟩
      · simp only [hdata]
        exact List.length_take_le _ _
      · intro p hp
        rw [hdata] at hp
        have hpred := (List.mem_filter.1 (List.mem_of_mem_take hp)).2
        simp only [Bool.and_eq_true, beq_iff_eq] at hpred
        exact hpred.1
      · intro _ p hp
        rw [hdata] at hp
        have hmem := List.mem_filter.1 (List.mem_of_mem_take hp)
        have hpred := hmem.2
        simp only [Bool.and_eq_true] at hpred
        have hif := hpred.2
        have hdb : followedIds s.db uid = ids := by
          rw [hids, hs1]
        rw [← hdb] at hif
        cases hfe : followedIds s.db uid with
        | nil => simp
        | cons x xs =>
          rw [hfe] at hif
          simp only [List.length_cons] at hif
          rw [if_pos (Nat.succ_pos _)] at hif
          simpa using hif

/-- C7 witness store: one institution profile and one followed target. -/
def w7db : DB :=
  { emptyDB with
      profiles :=
        [{ emptyProfile with id := "inst1", profile_type := "institution" }],
      follows := [{ id := "f1", follower_id := "u", following_id := "x",
                    follower_type := "individual",
                    following_type := "institution", created_at := 0 }] }

/-- Witness for C7 at a concrete fault-free store. -/
theorem suggested_limit_and_exclusions_witness :
    (getSuggestedConnections "u" 5 (mkStore w7db noFaults 0)).1.length ≤ 5 ∧
    (∀ p ∈ (getSuggestedConnections "u" 5 (mkStore w7db noFaults 0)).1,
      p.id ≠ "u") ∧
    (getSuggestedInstitutions "u" 5 (mkStore w7db noFaults 0)).1.length ≤ 5 ∧
    (∀ p ∈ (getSuggestedInstitutions "u" 5 (mkStore w7db noFaults 0)).1,
      p.profile_type = "institution") ∧
    (∀ p ∈ (getSuggestedInstitutions "u" 5 (mkStore w7db noFaults 0)).1,
      p.id ∉ followedIds (mkStore w7db noFaults 0).db "u") :=
  ⟨(suggested_limit_and_exclusions (mkStore w7db noFaults 0) "u" 5).1,
   (suggested_limit_and_exclusions (mkStore w7db noFaults 0) "u" 5).2.1,
   (suggested_limit_and_exclusions (mkStore w7db noFaults 0) "u" 5).2.2.1,
   (suggested_limit_and_exclusions (mkStore w7db noFaults 0) "u" 5).2.2.2.1,
   (suggested_limit_and_exclusions (mkStore w7db noFaults 0) "u" 5).2.2.2.2
     rfl⟩

/-- The store after two successful reads (probe and lookup). -/
def afterTwoReads (s : Store) (t1 t2 : String) : Store :=
  { s with callIdx := s.callIdx + 2,
           trace := s.trace ++ [StoreEvent.read t1, StoreEvent.read t2] }

/-- The store after `ensureProfileExists` has inserted the minimal row. -/
def afterEnsureInsert (s : Store) (uid em nm : String) : Store :=
  { s with db := { s.db with profiles :=
                     s.db.profiles ++ [insertedProfile uid em nm s.now] },
           callIdx := s.callIdx + 3,
           trace := s.trace ++ [StoreEvent.read "profiles",
                                StoreEvent.read "profiles",
                                StoreEvent.insertRow "profiles"] }

theorem ensure_found (s : Store) (uid em nm : String) (p : Profile)
    (hf : ∀ i, s.faults i = none)
    (hrows : s.db.profiles.filter (fun q => q.id == uid) = [p]) :
    ensureProfileExists uid em nm s =
      (some p, afterTwoReads s "profiles" "profiles") := by
  unfold ensureProfileExists checkSchemaExists runSingle callStore
    afterTwoReads
  simp [hf, hrows, singleRow]

theorem ensure_missing (s : Store) (uid em nm : String)
    (hf : ∀ i, s.faults i = none)
    (hrows : s.db.profiles.filter (fun q => q.id == uid) = []) :
    ensureProfileExists uid em nm s =
      (some (insertedProfile uid em nm s.now),
       afterEnsureInsert s uid em nm) := by
  unfold ensureProfileExists checkSchemaExists runSingle runInsert callStore
    afterEnsureInsert
  simp [hf, hrows, singleRow]

/-- C4: with a reachable, fault-free store and distinct profile ids,
calling `ensureProfileExists` twice in sequence succeeds and yields the
same stored record on both calls; the second call performs no write (the
store contents after the second call equal those after the first). -/
theorem ensureProfileExists_idempotent (s : Store) (uid em nm : String)
    (hf : ∀ i, s.faults i = none)
    (hnodup : (s.db.profiles.map Profile.id).Nodup) :
    (∃ p, (ensureProfileExists uid em nm s).1 = some p) ∧
    (ensureProfileExists uid em nm
        (ensureProfileExists uid em nm s).2).1 =
      (ensureProfileExists uid em nm s).1 ∧
    (ensureProfileExists uid em nm
        (ensureProfileExists uid em nm s).2).2.db =
      (ensureProfileExists uid em nm s).2.db := by
  have hlen := filter_id_len_le_one hnodup uid
  cases hrows : s.db.profiles.filter (fun q => q.id == uid) with
  | nil =>
    have h1 := ensure_missing s uid em nm hf hrows
    rw [h1]
    have hrows2 : (afterEnsureInsert s uid em nm).db.profiles.filter
        (fun q => q.id == uid) = [insertedProfile uid em nm s.now] := by
      unfold afterEnsureInsert
      simp only [List.filter_append, hrows]
      simp [insertedProfile]
    have h2 := ensure_found (afterEnsureInsert s uid em nm) uid em nm
      (insertedProfile uid em nm s.now) (fun i => hf i) hrows2
    rw [h2]
    simp [afterEnsureInsert, afterTwoReads]
  | cons p t =>
    have ht : t = [] := by
      rw [hrows] at hlen
      simpa using hlen
    subst ht
    have h1 := ensure_found s uid em nm p hf hrows
    rw [h1]
    have hrows2 : (afterTwoReads s "profiles" "profiles").db.profiles.filter
        (fun q => q.id == uid) = [p] := hrows
    have h2 := ensure_found (afterTwoReads s "profiles" "profiles") uid em nm p
      (fun i => hf i) hrows2
    rw [h2]
    simp [afterTwoReads]

/-- Witness for C4 at a concrete fault-free store with no profiles. -/
theorem ensureProfileExists_idempotent_witness :
    (∃ p, (ensureProfileExists "z" "e@x" "Zed"
      (mkStore emptyDB noFaults 4)).1 = some p) ∧
    (ensureProfileExists "z" "e@x" "Zed"
        (ensureProfileExists "z" "e@x" "Zed"
          (mkStore emptyDB noFaults 4)).2).1 =
      (ensureProfileExists "z" "e@x" "Zed" (mkStore emptyDB noFaults 4)).1 ∧
    (ensureProfileExists "z" "e@x" "Zed"
        (ensureProfileExists "z" "e@x" "Zed"
          (mkStore emptyDB noFaults 4)).2).2.db =
      (ensureProfileExists "z" "e@x" "Zed"
        (mkStore emptyDB noFaults 4)).2.db :=
  ensureProfileExists_idempotent (mkStore emptyDB noFaults 4) "z" "e@x" "Zed"
    (fun _ => rfl) (by decide)

theorem runRange_snd {α : Type} (s : Store) (table : String) (rows : List α)
    (off lim : Nat) :
    (runRange s table rows off lim).2 =
      { s with callIdx := s.callIdx + 1,
               trace := s.trace ++ [StoreEvent.rangeRead table off lim] } := by
  unfold runRange callStore
  cases s.faults s.callIdx <;> rfl

theorem runCount_snd (s : Store) (table : String) (n : Nat) :
    (runCount s table n).2 =
      { s with callIdx := s.callIdx + 1,
               trace := s.trace ++ [StoreEvent.countRead table] } := by
  unfold runCount callStore
  cases s.faults s.callIdx <;> rfl

theorem getPostsFetch_trace (offset limit : Nat) (s2 : Store) :
    ∀ ev ∈ (getPostsFetch offset limit s2).2.trace,
      ev ∈ s2.trace ∨ ev = StoreEvent.rangeRead "posts" offset limit ∨
        ev = StoreEvent.read "profiles" := by
  unfold getPostsFetch
  cases hrr : runRange s2 "posts" (sortByKeyDesc Post.created_at s2.db.posts)
      offset limit with
  | mk rres s3 =>
  have hs3 : s3 =
      { s2 with callIdx := s2.callIdx + 1,
                trace := s2.trace ++
                  [StoreEvent.rangeRead "posts" offset limit] } := by
    rw [← runRange_snd s2 "posts" (sortByKeyDesc Post.created_at s2.db.posts)
      offset limit, hrr]
  cases rres with
  | error e =>
    intro ev hev
    rw [hs3] at hev
    simp only [List.mem_append, List.mem_singleton] at hev
    tauto
  | ok posts =>
    by_cases hlen : (posts.length == 0) = true
    · simp only [hlen, if_true]
      intro ev hev
      rw [hs3] at hev
      simp only [List.mem_append, List.mem_singleton] at hev
      tauto
    · simp only [hlen, if_false]
      cases hsel : runSelect s3 "profiles"
          ((s3.db.profiles.filter (fun p =>
            (dedupKeepFirst (posts.map Post.author_id)).contains p.id)).map
            Profile.toAuthorSummary) with
      | mk ares s4 =>
      have hs4 : s4 =
          { s3 with callIdx := s3.callIdx + 1,
                    trace := s3.trace ++ [StoreEvent.read "profiles"] } := by
        rw [← runSelect_snd s3 "profiles" ((s3.db.profiles.filter (fun p =>
          (dedupKeepFirst (posts.map Post.author_id)).contains p.id)).map
          Profile.toAuthorSummary), hsel]
      have htail : ∀ ev ∈ s4.trace,
          ev ∈ s2.trace ∨ ev = StoreEvent.rangeRead "posts" offset limit ∨
            ev = StoreEvent.read "profiles" := by
        intro ev hev
        rw [hs4, hs3] at hev
        simp only [List.mem_append, List.mem_singleton] at hev
        tauto
      cases ares with
      | error e => exact htail
      | ok authors => exact htail

theorem getPostsFetch_past_end (offset limit : Nat) (s2 : Store)
    (hf : s2.faults s2.callIdx = none)
    (hoff : s2.db.posts.length ≤ offset) :
    (getPostsFetch offset limit s2).1 = [] := by
  unfold getPostsFetch runRange callStore
  rw [hf]
  simp only []
  have hdrop : (sortByKeyDesc Post.created_at s2.db.posts).drop offset = [] :=
    List.drop_eq_nil_of_le (by
      rw [sortByKeyDesc, List.length_insertionSort]
      exact hoff)
  rw [hdrop]
  simp

/-- C5: every row-range request `getPosts` issues against the posts table
has an offset no greater than the posts table's total row count (the
offset is clamped to the count, and an unknown count clamps to zero); and
with a fault-free store, requesting a page past the end returns the empty
list rather than an error. -/
theorem getPosts_offset_clamped (s : Store) (page limit : Nat) :
    (∀ off lim,
      StoreEvent.rangeRead "posts" off lim ∈ (getPosts page limit s).2.trace →
      StoreEvent.rangeRead "posts" off lim ∈ s.trace ∨
        off ≤ s.db.posts.length) ∧
    ((∀ i, s.faults i = none) → s.db.posts.length ≤ page * limit →
      (getPosts page limit s).1 = []) := by
  constructor
  · intro off lim hev
    unfold getPosts at hev
    cases hcs : checkSchemaExists s with
    | mk ok s1 =>
    rw [hcs] at hev
    have hs1 : s1 =
        { s with callIdx := s.callIdx + 1,
                 trace := s.trace ++ [StoreEvent.read "profiles"] } := by
      rw [← checkSchemaExists_snd s, hcs]
    cases ok with
    | false =>
      rw [hs1] at hev
      simp at hev
      exact Or.inl hev
    | true =>
    simp only [if_true] at hev
    cases hrc : runCount s1 "posts" s1.db.posts.length with
    | mk cres s2 =>
    rw [hrc] at hev
    have hs2 : s2 =
        { s1 with callIdx := s1.callIdx + 1,
                  trace := s1.trace ++ [StoreEvent.countRead "posts"] } := by
      rw [← runCount_snd s1 "posts" s1.db.posts.length, hrc]
    have htailmem : ∀ ev ∈ s2.trace, ev ∈ s.trace ∨
        ev = StoreEvent.read "profiles" ∨
        ev = StoreEvent.countRead "posts" := by
      intro ev hev2
      rw [hs2, hs1] at hev2
      simp only [List.mem_append, List.mem_singleton] at hev2
      tauto
    have hdb2 : s2.db = s.db := by rw [hs2, hs1]
    cases cres with
    | error e =>
      simp only [] at hev
      rw [if_neg (by simp)] at hev
      rcases getPostsFetch_trace _ _ _ _ hev with h | h | h
      · rcases htailmem _ h with h2 | h2 | h2
        · exact Or.inl h2
        · simp at h2
        · simp at h2
      · simp only [StoreEvent.rangeRead.injEq] at h
        right
        rw [h.2.1]
        simp
      · simp at h
    | ok n =>
      have hn : n = s.db.posts.length := by
        have := runCount_fst_ok (by rw [hrc])
        rw [this, hs1]
      by_cases h0 : ((some n : Option Nat) == some 0) = true
      · simp only [] at hev
        rw [if_pos h0] at hev
        rcases htailmem _ hev with h2 | h2 | h2
        · exact Or.inl h2
        · simp at h2
        · simp at h2
      · simp only [] at hev
        rw [if_neg h0] at hev
        rcases getPostsFetch_trace _ _ _ _ hev with h | h | h
        · rcases htailmem _ h with h2 | h2 | h2
          · exact Or.inl h2
          · simp at h2
          · simp at h2
        · simp only [StoreEvent.rangeRead.injEq] at h
          right
          rw [h.2.1]
          simp only [Option.getD_some]
          rw [← hn]
          exact Nat.min_le_right _ _
        · simp at h
  · intro hf hle
    unfold getPosts
    cases hcs : checkSchemaExists s with
    | mk ok s1 =>
    have hs1 : s1 =
        { s with callIdx := s.callIdx + 1,
                 trace := s.trace ++ [StoreEvent.read "profiles"] } := by
      rw [← checkSchemaExists_snd s, hcs]
    have hok : ok = true := by
      have : (checkSchemaExists s).1 = ok := by rw [hcs]
      rw [← this]
      unfold checkSchemaExists callStore
      rw [hf]
      rfl
    subst hok
    simp only [if_true]
    cases hrc : runCount s1 "posts" s1.db.posts.length with
    | mk cres s2 =>
    have hs2 : s2 =
        { s1 with callIdx := s1.callIdx + 1,
                  trace := s1.trace ++ [StoreEvent.countRead "posts"] } := by
      rw [← runCount_snd s1 "posts" s1.db.posts.length, hrc]
    have hcok : cres = Except.ok s1.db.posts.length := by
      have : (runCount s1 "posts" s1.db.posts.length).1 = cres := by rw [hrc]
      rw [← this]
      unfold runCount callStore
      rw [hs1]
      simp only []
      rw [hf]
    subst hcok
    simp only []
    by_cases h0 : ((some s1.db.posts.length : Option Nat) == some 0) = true
    · rw [if_pos h0]
    · rw [if_neg h0]
      have hlen1 : s1.db.posts.length = s.db.posts.length := by rw [hs1]
      apply getPostsFetch_past_end
      · rw [hs2, hs1]
        simp only []
        exact hf _
      · have hle1 : s1.db.posts.length ≤ page * limit := by
          rw [hlen1]
          exact hle
        rw [hs2]
        simp only [Option.getD_some]
        rw [Nat.min_eq_right hle1]

/-- Store used by the C5 witness: a single post. -/
def w5db : DB :=
  { emptyDB with posts :=
      [{ id := "p1", content := "y", author_id := "a", visibility := "public",
         likes_count := 0, comments_count := 0, shares_count := 0,
         created_at := 1, updated_at := 1 }] }

/-- Witness for C5 at a concrete fault-free store: the issued range read is
in the trace and its offset is within the count, and a past-the-end page
returns the empty list. -/
theorem getPosts_offset_clamped_witness :
    (StoreEvent.rangeRead "posts" 0 1 ∈
      (getPosts 0 1 (mkStore w5db noFaults 0)).2.trace) ∧
    (StoreEvent.rangeRead "posts" 0 1 ∈ (mkStore w5db noFaults 0).trace ∨
      0 ≤ (mkStore w5db noFaults 0).db.posts.length) ∧
    (getPosts 5 1 (mkStore w5db noFaults 0)).1 = [] :=
  ⟨by decide,
   (getPosts_offset_clamped (mkStore w5db noFaults 0) 0 1).1 0 1 (by decide),
   (getPosts_offset_clamped (mkStore w5db noFaults 0) 5 1).2
     (fun _ => rfl) (by decide)⟩

/-- C8: every exported operation of the layer is total at its boundary.
Under a fully unreachable store (every call fails) and under a store whose
probe succeeds but whose every subsequent call fails with an arbitrary
error, each of the 35 value-returning exported operations returns its
type-appropriate safe default (empty list, null, false, or the synthesized
placeholder) instead of propagating the failure. -/
theorem operations_safe_defaults_on_failure (db : DB) (e : StoreError)
    (now : Nat) (uid tid pid cid em nm iname ft gt : String)
    (page limit : Nat) (upd : Profile → Profile) (np : NewPostInput)
    (nc : NewCommentInput) (nj : NewJobInput) (na : NewJobApplicationInput)
    (nev : NewEventInput) (nr : NewEventAttendeeInput) :
    (getProfile uid (mkStore db (allFail e) now)).1 =
      some (mockProfileUnreachable uid now) ∧
    (updateProfile uid upd (mkStore db (allFail e) now)).1 =
      none ∧
    (ensureProfileExists uid em nm (mkStore db (allFail e) now)).1 =
      some (mockProfileEnsure uid em nm now) ∧
    (getPosts page limit (mkStore db (allFail e) now)).1 =
      [] ∧
    (getPostsByAuthor uid (mkStore db (allFail e) now)).1 =
      [] ∧
    (createPost np (mkStore db (allFail e) now)).1 =
      none ∧
    (getConnections uid (mkStore db (allFail e) now)).1 =
      [] ∧
    (getConnectionStatus uid tid (mkStore db (allFail e) now)).1 =
      none ∧
    (sendConnectionRequest uid tid (mkStore db (allFail e) now)).1 =
      none ∧
    (getSuggestedConnections uid limit (mkStore db (allFail e) now)).1 =
      [] ∧
    (getConnectionRequests uid (mkStore db (allFail e) now)).1 =
      [] ∧
    (acceptConnectionRequest cid (mkStore db (allFail e) now)).1 =
      false ∧
    (rejectConnectionRequest cid (mkStore db (allFail e) now)).1 =
      false ∧
    (getExperiences uid (mkStore db (allFail e) now)).1 =
      [] ∧
    (getEducation uid (mkStore db (allFail e) now)).1 =
      [] ∧
    (getNotifications uid (mkStore db (allFail e) now)).1 =
      [] ∧
    (createComment nc (mkStore db (allFail e) now)).1 =
      none ∧
    (getPostComments pid (mkStore db (allFail e) now)).1 =
      [] ∧
    (likePost pid uid (mkStore db (allFail e) now)).1 =
      false ∧
    (unlikePost pid uid (mkStore db (allFail e) now)).1 =
      false ∧
    (isPostLiked pid uid (mkStore db (allFail e) now)).1 =
      false ∧
    (createInstitution iname (mkStore db (allFail e) now)).1 =
      none ∧
    (getInstitutions (mkStore db (allFail e) now)).1 =
      [] ∧
    (createJob nj (mkStore db (allFail e) now)).1 =
      none ∧
    (getJobs (mkStore db (allFail e) now)).1 =
      [] ∧
    (applyToJob na (mkStore db (allFail e) now)).1 =
      none ∧
    (createEvent nev (mkStore db (allFail e) now)).1 =
      none ∧
    (getEvents (mkStore db (allFail e) now)).1 =
      [] ∧
    (registerForEvent nr (mkStore db (allFail e) now)).1 =
      none ∧
    (followUser uid tid ft gt (mkStore db (allFail e) now)).1 =
      none ∧
    (unfollowUser uid tid (mkStore db (allFail e) now)).1 =
      false ∧
    (isFollowing uid tid (mkStore db (allFail e) now)).1 =
      false ∧
    (getFollowers uid (mkStore db (allFail e) now)).1 =
      [] ∧
    (getFollowing uid (mkStore db (allFail e) now)).1 =
      [] ∧
    (getSuggestedInstitutions uid limit (mkStore db (allFail e) now)).1 =
      [] ∧
    (getProfile uid (mkStore db (failAfterProbe e) now)).1 =
      (if (e.code == "PGRST116") = true then some (basicProfileNotFound uid now) else none) ∧
    (updateProfile uid upd (mkStore db (failAfterProbe e) now)).1 =
      none ∧
    (ensureProfileExists uid em nm (mkStore db (failAfterProbe e) now)).1 =
      none ∧
    (getPosts page limit (mkStore db (failAfterProbe e) now)).1 =
      [] ∧
    (getPostsByAuthor uid (mkStore db (failAfterProbe e) now)).1 =
      [] ∧
    (createPost np (mkStore db (failAfterProbe e) now)).1 =
      none ∧
    (getConnections uid (mkStore db (failAfterProbe e) now)).1 =
      [] ∧
    (getConnectionStatus uid tid (mkStore db (failAfterProbe e) now)).1 =
      none ∧
    (sendConnectionRequest uid tid (mkStore db (failAfterProbe e) now)).1 =
      none ∧
    (getSuggestedConnections uid limit (mkStore db (failAfterProbe e) now)).1 =
      [] ∧
    (getConnectionRequests uid (mkStore db (failAfterProbe e) now)).1 =
      [] ∧
    (acceptConnectionRequest cid (mkStore db (failAfterProbe e) now)).1 =
      false ∧
    (rejectConnectionRequest cid (mkStore db (failAfterProbe e) now)).1 =
      false ∧
    (getExperiences uid (mkStore db (failAfterProbe e) now)).1 =
      [] ∧
    (getEducation uid (mkStore db (failAfterProbe e) now)).1 =
      [] ∧
    (getNotifications uid (mkStore db (failAfterProbe e) now)).1 =
      [] ∧
    (createComment nc (mkStore db (failAfterProbe e) now)).1 =
      none ∧
    (getPostComments pid (mkStore db (failAfterProbe e) now)).1 =
      [] ∧
    (likePost pid uid (mkStore db (failAfterProbe e) now)).1 =
      false ∧
    (unlikePost pid uid (mkStore db (failAfterProbe e) now)).1 =
      false ∧
    (isPostLiked pid uid (mkStore db (failAfterProbe e) now)).1 =
      false ∧
    (createInstitution iname (mkStore db (failAfterProbe e) now)).1 =
      none ∧
    (getInstitutions (mkStore db (failAfterProbe e) now)).1 =
      [] ∧
    (createJob nj (mkStore db (failAfterProbe e) now)).1 =
      none ∧
    (getJobs (mkStore db (failAfterProbe e) now)).1 =
      [] ∧
    (applyToJob na (mkStore db (failAfterProbe e) now)).1 =
      none ∧
    (createEvent nev (mkStore db (failAfterProbe e) now)).1 =
      none ∧
    (getEvents (mkStore db (failAfterProbe e) now)).1 =
      [] ∧
    (registerForEvent nr (mkStore db (failAfterProbe e) now)).1 =
      none ∧
    (followUser uid tid ft gt (mkStore db (failAfterProbe e) now)).1 =
      none ∧
    (unfollowUser uid tid (mkStore db (failAfterProbe e) now)).1 =
      false ∧
    (isFollowing uid tid (mkStore db (failAfterProbe e) now)).1 =
      false ∧
    (getFollowers uid (mkStore db (failAfterProbe e) now)).1 =
      [] ∧
    (getFollowing uid (mkStore db (failAfterProbe e) now)).1 =
      [] ∧
    (getSuggestedInstitutions uid limit (mkStore db (failAfterProbe e) now)).1 =
      [] :=
  ⟨by simp [getProfile, checkSchemaExists, callStore, mkStore, allFail],
   by simp [updateProfile, checkSchemaExists, callStore, mkStore, allFail],
   by simp [ensureProfileExists, checkSchemaExists, callStore, mkStore, allFail],
   by simp [getPosts, checkSchemaExists, callStore, mkStore, allFail],
   by simp [getPostsByAuthor, checkSchemaExists, callStore, mkStore, allFail],
   by simp [createPost, checkSchemaExists, callStore, mkStore, allFail],
   by simp [getConnections, checkSchemaExists, callStore, mkStore, allFail],
   by simp [getConnectionStatus, checkSchemaExists, callStore, mkStore, allFail],
   by simp [sendConnectionRequest, checkSchemaExists, callStore, mkStore, allFail],
   by simp [getSuggestedConnections, checkSchemaExists, callStore, mkStore, allFail],
   by simp [getConnectionRequests, checkSchemaExists, callStore, mkStore, allFail],
   by simp [acceptConnectionRequest, checkSchemaExists, callStore, mkStore, allFail],
   by simp [rejectConnectionRequest, checkSchemaExists, callStore, mkStore, allFail],
   by simp [getExperiences, checkSchemaExists, callStore, mkStore, allFail],
   by simp [getEducation, checkSchemaExists, callStore, mkStore, allFail],
   by simp [getNotifications, checkSchemaExists, callStore, mkStore, allFail],
   by simp [createComment, checkSchemaExists, callStore, mkStore, allFail],
   by simp [getPostComments, checkSchemaExists, callStore, mkStore, allFail],
   by simp [likePost, checkSchemaExists, callStore, mkStore, allFail],
   by simp [unlikePost, checkSchemaExists, callStore, mkStore, allFail],
   by simp [isPostLiked, checkSchemaExists, callStore, mkStore, allFail],
   by simp [createInstitution, checkSchemaExists, callStore, mkStore, allFail],
   by simp [getInstitutions, checkSchemaExists, callStore, mkStore, allFail],
   by simp [createJob, checkSchemaExists, callStore, mkStore, allFail],
   by simp [getJobs, checkSchemaExists, callStore, mkStore, allFail],
   by simp [applyToJob, checkSchemaExists, callStore, mkStore, allFail],
   by simp [createEvent, checkSchemaExists, callStore, mkStore, allFail],
   by simp [getEvents, checkSchemaExists, callStore, mkStore, allFail],
   by simp [registerForEvent, checkSchemaExists, callStore, mkStore, allFail],
   by simp [followUser, checkSchemaExists, callStore, mkStore, allFail],
   by simp [unfollowUser, checkSchemaExists, callStore, mkStore, allFail],
   by simp [isFollowing, checkSchemaExists, callStore, mkStore, allFail],
   by simp [getFollowers, checkSchemaExists, callStore, mkStore, allFail],
   by simp [getFollowing, checkSchemaExists, callStore, mkStore, allFail],
   by simp [getSuggestedInstitutions, checkSchemaExists, callStore, mkStore, allFail],
   by by_cases hc : (e.code == "PGRST116") = true <;> simp [hc, getProfile, checkSchemaExists, callStore, mkStore, failAfterProbe, runMaybeSingle],
   by simp [updateProfile, checkSchemaExists, callStore, mkStore, failAfterProbe, runUpdate],
   by by_cases hc : (e.code == "PGRST116") = true <;> simp [hc, ensureProfileExists, checkSchemaExists, callStore, mkStore, failAfterProbe, runSingle, runInsert],
   by simp [getPosts, checkSchemaExists, callStore, mkStore, failAfterProbe, getPostsFetch, runCount, runRange],
   by simp [getPostsByAuthor, checkSchemaExists, callStore, mkStore, failAfterProbe, runSelect],
   by simp [createPost, checkSchemaExists, callStore, mkStore, failAfterProbe, runInsert],
   by simp [getConnections, checkSchemaExists, callStore, mkStore, failAfterProbe, runSelect],
   by simp [getConnectionStatus, checkSchemaExists, callStore, mkStore, failAfterProbe, runSingle],
   by simp [sendConnectionRequest, checkSchemaExists, callStore, mkStore, failAfterProbe, runInsert],
   by simp [getSuggestedConnections, checkSchemaExists, callStore, mkStore, failAfterProbe, runSelect],
   by simp [getConnectionRequests, checkSchemaExists, callStore, mkStore, failAfterProbe, runSelect],
   by simp [acceptConnectionRequest, checkSchemaExists, callStore, mkStore, failAfterProbe, runUpdate],
   by simp [rejectConnectionRequest, checkSchemaExists, callStore, mkStore, failAfterProbe, runUpdate],
   by simp [getExperiences, checkSchemaExists, callStore, mkStore, failAfterProbe, runSelect],
   by simp [getEducation, checkSchemaExists, callStore, mkStore, failAfterProbe, runSelect],
   by simp [getNotifications, checkSchemaExists, callStore, mkStore, failAfterProbe],
   by simp [createComment, checkSchemaExists, callStore, mkStore, failAfterProbe, runInsert],
   by simp [getPostComments, checkSchemaExists, callStore, mkStore, failAfterProbe, runSelect],
   by simp [likePost, checkSchemaExists, callStore, mkStore, failAfterProbe, runInsert],
   by simp [unlikePost, checkSchemaExists, callStore, mkStore, failAfterProbe, runDelete],
   by simp [isPostLiked, checkSchemaExists, callStore, mkStore, failAfterProbe, runSingle],
   by simp [createInstitution, checkSchemaExists, callStore, mkStore, failAfterProbe, runInsert],
   by simp [getInstitutions, checkSchemaExists, callStore, mkStore, failAfterProbe, runSelect],
   by simp [createJob, checkSchemaExists, callStore, mkStore, failAfterProbe, runInsert],
   by simp [getJobs, checkSchemaExists, callStore, mkStore, failAfterProbe, runSelect],
   by simp [applyToJob, checkSchemaExists, callStore, mkStore, failAfterProbe, runInsert],
   by simp [createEvent, checkSchemaExists, callStore, mkStore, failAfterProbe, runInsert],
   by simp [getEvents, checkSchemaExists, callStore, mkStore, failAfterProbe, runSelect],
   by simp [registerForEvent, checkSchemaExists, callStore, mkStore, failAfterProbe, runInsert],
   by simp [followUser, checkSchemaExists, callStore, mkStore, failAfterProbe, runInsert],
   by simp [unfollowUser, checkSchemaExists, callStore, mkStore, failAfterProbe, runDelete],
   by simp [isFollowing, checkSchemaExists, callStore, mkStore, failAfterProbe, runSingle],
   by simp [getFollowers, checkSchemaExists, callStore, mkStore, failAfterProbe, runSelect],
   by simp [getFollowing, checkSchemaExists, callStore, mkStore, failAfterProbe, runSelect],
   by simp [getSuggestedInstitutions, checkSchemaExists, callStore, mkStore, failAfterProbe, runSelect]⟩
